import Mathlib

/-!
Shallow embedding of `src/openroute_directions.py`: an interactive CLI that
geocodes two addresses, fetches a driving route between them, and renders
duration, distance, an optional fuel estimate and turn-by-turn steps.

JSON-decoded Python values are modelled by `Json`; Python numbers are
modelled by exact fractions (`Frac`, an integer numerator over a positive
denominator, with fully computable arithmetic); an unhandled Python
exception is modelled by `Except.error` in the `Py` monad; printed output is
collected as the list of strings passed to `print`.
-/

/-- An exact fraction: integer numerator over a positive natural
denominator.  Models the numeric values (ints and floats) flowing through
the program; arithmetic is structural so that every concrete run reduces. -/
structure Frac where
  num : ℤ
  den : ℕ
  den_pos : 0 < den

/-- The rational value of a fraction. -/
def Frac.toRat (f : Frac) : ℚ := (f.num : ℚ) / (f.den : ℚ)

/-- Embed an integer. -/
def Frac.ofInt (n : ℤ) : Frac := ⟨n, 1, Nat.one_pos⟩

instance : OfNat Frac n := ⟨Frac.ofInt n⟩

def Frac.add (a b : Frac) : Frac :=
  ⟨a.num * b.den + b.num * a.den, a.den * b.den, Nat.mul_pos a.den_pos b.den_pos⟩

def Frac.sub (a b : Frac) : Frac :=
  ⟨a.num * b.den - b.num * a.den, a.den * b.den, Nat.mul_pos a.den_pos b.den_pos⟩

def Frac.mul (a b : Frac) : Frac :=
  ⟨a.num * b.num, a.den * b.den, Nat.mul_pos a.den_pos b.den_pos⟩

def Frac.neg (a : Frac) : Frac := ⟨-a.num, a.den, a.den_pos⟩

/-- Division.  The zero-divisor case (a `ZeroDivisionError` in Python) never
occurs in the program, which only divides by the positive literals `1000`,
`1609.344`, `100` and powers of ten. -/
def Frac.div (a b : Frac) : Frac :=
  if h : b.num = 0 then ⟨0, 1, Nat.one_pos⟩
  else ⟨a.num * b.den * Int.sign b.num, a.den * b.num.natAbs,
    Nat.mul_pos a.den_pos (Int.natAbs_pos.mpr h)⟩

/-- Strict comparison by cross multiplication (denominators are positive). -/
def Frac.blt (a b : Frac) : Bool := decide (a.num * b.den < b.num * a.den)

/-- Non-strict comparison by cross multiplication. -/
def Frac.ble (a b : Frac) : Bool := decide (a.num * b.den ≤ b.num * a.den)

/-- Value equality by cross multiplication. -/
def Frac.beq (a b : Frac) : Bool := decide (a.num * b.den = b.num * a.den)

/-- Scale by `10 ^ e` for an integer exponent `e`. -/
def Frac.scale10 (e : ℤ) (f : Frac) : Frac :=
  if 0 ≤ e then ⟨f.num * 10 ^ e.toNat, f.den, f.den_pos⟩
  else ⟨f.num, f.den * 10 ^ (-e).toNat, Nat.mul_pos f.den_pos (Nat.pos_pow_of_pos _ (by norm_num))⟩

/-- JSON-decoded Python value: `None`, `bool`, numbers, `str`, `list`, `dict`. -/
inductive Json where
  | null : Json
  | bool (b : Bool) : Json
  | num (q : Frac) : Json
  | str (s : String) : Json
  | arr (xs : List Json) : Json
  | obj (kvs : List (String × Json)) : Json

/-- Python truthiness of a JSON-decoded value. -/
def truthy : Json → Bool
  | .null => false
  | .bool b => b
  | .num q => decide (q.num ≠ 0)
  | .str s => decide (s ≠ "")
  | .arr xs => !xs.isEmpty
  | .obj kvs => !kvs.isEmpty

/-- Python `str.strip()`: drop leading and trailing whitespace. -/
def pyStrip (s : String) : String :=
  String.mk (((s.toList.dropWhile Char.isWhitespace).reverse.dropWhile Char.isWhitespace).reverse)

/-- Python `str.lower()` (ASCII case folding). -/
def pyLower (s : String) : String :=
  String.mk (s.toList.map Char.toLower)

/-- Value of a list of decimal digit characters. -/
def digitsVal (cs : List Char) : ℕ :=
  cs.foldl (fun a c => a * 10 + (c.toNat - 48)) 0

/-- Parse an optional exponent suffix (`e`/`E`, optional sign, digits) that
must consume the rest of the input; `[]` means no exponent. -/
def parseExp : List Char → Option ℤ
  | [] => some 0
  | c :: r =>
    if c = 'e' ∨ c = 'E' then
      let (sg, r2) : ℤ × List Char :=
        match r with
        | '+' :: t => (1, t)
        | '-' :: t => (-1, t)
        | _ => (1, r)
      let ds := r2.takeWhile Char.isDigit
      let rest := r2.dropWhile Char.isDigit
      if ds.isEmpty ∨ !rest.isEmpty then none
      else some (sg * (digitsVal ds : ℤ))
    else none

/-- Python `float(s)` on a string: strip whitespace, optional sign, decimal
digits with an optional fractional part and optional exponent.  `none` models
the `ValueError` raised on a non-numeric string. -/
def parseFloatStr (s : String) : Option Frac :=
  let cs := (pyStrip s).toList
  let (neg, cs1) : Bool × List Char :=
    match cs with
    | '+' :: r => (false, r)
    | '-' :: r => (true, r)
    | _ => (false, cs)
  let ip := cs1.takeWhile Char.isDigit
  let cs2 := cs1.dropWhile Char.isDigit
  let fp :=
    match cs2 with
    | '.' :: r => r.takeWhile Char.isDigit
    | _ => []
  let cs3 :=
    match cs2 with
    | '.' :: r => r.dropWhile Char.isDigit
    | _ => cs2
  if ip.isEmpty ∧ fp.isEmpty then none
  else
    match parseExp cs3 with
    | none => none
    | some e =>
      let mant : Frac :=
        ⟨(digitsVal ip : ℤ) * 10 ^ fp.length + (digitsVal fp : ℤ), 10 ^ fp.length,
          Nat.pos_pow_of_pos _ (by norm_num)⟩
      let scaled := Frac.scale10 e mant
      some (if neg then scaled.neg else scaled)

/-- Python `float(v)` on a JSON-decoded value: numbers pass through, bools
coerce to 0/1, strings are parsed; `None`, lists and dicts raise (modelled as
`none`, matching the callers that catch the exception). -/
def pyFloat : Json → Option Frac
  | .num q => some q
  | .bool b => some (Frac.ofInt (if b then 1 else 0))
  | .str s => parseFloatStr s
  | _ => none

/-- Python `round` to an integer: round half to even. -/
def pyRound (q : Frac) : ℤ :=
  let f := Int.fdiv q.num q.den
  let r := q.num - f * q.den
  if 2 * r < (q.den : ℤ) then f
  else if 2 * r > (q.den : ℤ) then f + 1
  else if 2 ∣ f then f else f + 1

/-- `meters_to_km`: `float(m) / 1000.0`, `None` when the conversion raises. -/
def meters_to_km (m : Json) : Option Frac :=
  (pyFloat m).map (fun q => q.div (Frac.ofInt 1000))

/-- `meters_to_miles`: `float(m) / 1609.344`, `None` when the conversion raises. -/
def meters_to_miles (m : Json) : Option Frac :=
  (pyFloat m).map (fun q => q.div ⟨1609344, 1000, by norm_num⟩)

/-- Decimal digit characters of `n`, accumulator-style, with explicit fuel
so that reduction is structural. -/
def natToStrAux : ℕ → ℕ → List Char → List Char
  | 0, _, acc => acc
  | fuel + 1, n, acc =>
    if n < 10 then Nat.digitChar n :: acc
    else natToStrAux fuel (n / 10) (Nat.digitChar (n % 10) :: acc)

/-- Decimal rendering of a natural number. -/
def natToStr (n : ℕ) : String := String.mk (natToStrAux (n + 1) n [])

/-- Decimal rendering of an integer (Python `str(n)`). -/
def intToStr (n : ℤ) : String :=
  if n < 0 then "-" ++ natToStr n.natAbs else natToStr n.natAbs

/-- Left-pad a string with `'0'` to width `w`. -/
def zfill (w : ℕ) (s : String) : String :=
  if s.length < w then String.mk (List.replicate (w - s.length) '0') ++ s else s

/-- Python `f"{n:02d}"`: decimal rendering of an integer, zero-padded to a
total width of two (the sign counts toward the width). -/
def padInt2 (n : ℤ) : String :=
  if n < 0 then "-" ++ zfill 1 (natToStr n.natAbs) else zfill 2 (natToStr n.natAbs)

/-- `seconds_to_hms`: round to an integer, decompose into hours / minutes /
seconds with floor division, render zero-padded `H:MM:SS`; any value that
`float` rejects yields `"N/A"`. -/
def seconds_to_hms (s : Json) : String :=
  match pyFloat s with
  | none => "N/A"
  | some q =>
    let n := pyRound q
    let h := Int.fdiv n 3600
    let m := Int.fdiv (Int.emod n 3600) 60
    let sec := Int.emod n 60
    padInt2 h ++ ":" ++ padInt2 m ++ ":" ++ padInt2 sec

/-- Python `f"{q:.{prec}f}"` on the exact value: round half to even at
`prec` decimal places (a negative value that rounds to zero keeps its sign,
as Python's float formatting does). -/
def formatFixed (prec : ℕ) (q : Frac) : String :=
  let n := pyRound (q.mul (Frac.ofInt (10 ^ prec)))
  let sign := if n < 0 ∨ (n = 0 ∧ q.num < 0) then "-" else ""
  let a := n.natAbs
  let base := 10 ^ prec
  sign ++ natToStr (a / base) ++ "." ++ zfill prec (natToStr (a % base))

example : seconds_to_hms (.num (Frac.ofInt 3725)) = "01:02:05" := rfl
example : seconds_to_hms (.str "bad") = "N/A" := rfl
example : seconds_to_hms (.num (Frac.ofInt 90061)) = "25:01:01" := rfl
example : formatFixed 2 (Frac.ofInt 10) = "10.00" := rfl
example : formatFixed 2 ((Frac.ofInt 10).mul ((Frac.ofInt 8).div (Frac.ofInt 100))) = "0.80" := rfl
example : formatFixed 1 (Frac.ofInt 8) = "8.0" := rfl
example : (parseFloatStr "3.5").map Frac.toRat = some (7/2) := by
  have : parseFloatStr "3.5" = some ⟨35, 10, by norm_num⟩ := rfl
  rw [this]
  norm_num [Frac.toRat]
example : parseFloatStr "bad" = none := rfl
example : pyLower "QuIt" = "quit" := rfl
example : pyStrip "  q " = "q" := rfl

/-- Exception monad: `Except.error e` models an unhandled Python exception
of kind `e` escaping the function. -/
abbrev Py (α : Type) := Except String α

/-- Outcome of an HTTP request made with `requests`: either a transport
failure (`requests.exceptions.RequestException`) or a response with a status
code, a raw body text, and `some` parsed body when the body is valid JSON
(`r.json()` raises otherwise, modelled by `none`). -/
inductive Transport where
  | fail (msg : String) : Transport
  | ok (status : ℤ) (text : String) (json : Option Json) : Transport

/-- Python dict lookup with default.  `json.loads` keeps the last value of
a duplicated key, hence the reversed lookup. -/
def objGetD (kvs : List (String × Json)) (k : String) (d : Json) : Json :=
  ((kvs.reverse).lookup k).getD d

/-- Python `v.get(k, d)` — raises `AttributeError` unless `v` is a dict. -/
def pyGetD (v : Json) (k : String) (d : Json) : Py Json :=
  match v with
  | .obj kvs => .ok (objGetD kvs k d)
  | _ => .error "AttributeError"

/-- Python `v.get(k)` with the implicit `None` default. -/
def pyGetNone (v : Json) (k : String) : Py Json :=
  pyGetD v k .null

/-- Python `v[0]`: first element of a list, first character of a string;
dicts raise `KeyError` (their keys are strings), other values are not
subscriptable. -/
def pyIndex0 (v : Json) : Py Json :=
  match v with
  | .arr [] => .error "IndexError"
  | .arr (x :: _) => .ok x
  | .str s =>
    match s.toList with
    | [] => .error "IndexError"
    | c :: _ => .ok (.str (String.mk [c]))
  | .obj _ => .error "KeyError"
  | _ => .error "TypeError"

/-- Python `len(v)` — only sized values have a length. -/
def pyLen (v : Json) : Py ℤ :=
  match v with
  | .arr xs => .ok xs.length
  | .str s => .ok s.length
  | .obj kvs => .ok kvs.length
  | _ => .error "TypeError"

/-- Python `a, b = v` for a value already known to have length 2. -/
def unpack2 (v : Json) : Py (Json × Json) :=
  match v with
  | .arr [a, b] => .ok (a, b)
  | .str s =>
    match s.toList with
    | [c1, c2] => .ok (.str (String.mk [c1]), .str (String.mk [c2]))
    | _ => .error "ValueError"
  | .obj [(k1, _), (k2, _)] => .ok (.str k1, .str k2)
  | _ => .error "TypeError"

/-- Python `c <= v` for an integer literal `c`: numbers and bools compare,
anything else raises `TypeError`. -/
def intLeJson (c : ℤ) (v : Json) : Py Bool :=
  match v with
  | .num q => .ok ((Frac.ofInt c).ble q)
  | .bool b => .ok (decide (c ≤ if b then (1 : ℤ) else 0))
  | _ => .error "TypeError"

/-- Python `v <= c` for an integer literal `c`. -/
def jsonLeInt (v : Json) (c : ℤ) : Py Bool :=
  match v with
  | .num q => .ok (q.ble (Frac.ofInt c))
  | .bool b => .ok (decide ((if b then (1 : ℤ) else 0) ≤ c))
  | _ => .error "TypeError"

/-- The chained, short-circuiting test
`-180 <= lon <= 180 and -90 <= lat <= 90` of `geocode_address`. -/
def coordInRange (lon lat : Json) : Py Bool := do
  let c1 ← intLeJson (-180) lon
  if !c1 then pure false
  else do
    let c2 ← jsonLeInt lon 180
    if !c2 then pure false
    else do
      let c3 ← intLeJson (-90) lat
      if !c3 then pure false
      else jsonLeInt lat 90

/-- `geocode_address(address, key)`, with the HTTP outcome supplied as an
oracle.  `.ok none` is Python's `return None`; `.ok (some c)` returns the
coordinate list `[lon, lat]`; `.error` is an unhandled exception. -/
def geocode_address (address : String) (key : String) (resp : Transport) :
    Py (Option Json) :=
  match resp with
  | .fail _ => .ok none
  | .ok status _text j =>
    if status ≠ 200 then .ok none
    else do
      let data ← match j with
        | some d => pure d
        | none => Except.error "JSONDecodeError"
      let feats ← pyGetD data "features" (.arr [])
      if !truthy feats then pure none
      else do
        let f0 ← pyIndex0 feats
        let geom ← pyGetD f0 "geometry" (.obj [])
        let coords ← pyGetNone geom "coordinates"
        if !truthy coords then pure none
        else do
          let n ← pyLen coords
          if n ≠ 2 then pure none
          else do
            let lonlat ← unpack2 coords
            let inR ← coordInRange lonlat.1 lonlat.2
            if !inR then pure none
            else pure (some (.arr [lonlat.1, lonlat.2]))

/-- The structured error built by `fetch_route` for a non-200 status:
`{"status": ..., "message": ...}`. -/
structure RouteError where
  status : ℤ
  message : Json

/-- Python `repr` of a JSON-decoded value (string escaping elided). -/
def pyRepr : Json → String
  | .null => "None"
  | .bool b => if b then "True" else "False"
  | .num q => if q.den = 1 then intToStr q.num else intToStr q.num ++ "/" ++ natToStr q.den
  | .str s => "'" ++ s ++ "'"
  | .arr xs => "[" ++ String.intercalate ", " (pyReprList xs) ++ "]"
  | .obj kvs => "\x7b" ++ String.intercalate ", " (pyReprObj kvs) ++ "\x7d"
where
  pyReprList : List Json → List String
    | [] => []
    | x :: xs => pyRepr x :: pyReprList xs
  pyReprObj : List (String × Json) → List String
    | [] => []
    | (k, v) :: kvs => ("'" ++ k ++ "': " ++ pyRepr v) :: pyReprObj kvs

/-- Python `str` of a JSON-decoded value: bare text for strings, `repr`
otherwise. -/
def pyStr : Json → String
  | .str s => s
  | v => pyRepr v

/-- `fetch_route(orig_coords, dest_coords, key)`, with the HTTP outcome
supplied as an oracle.  Returns the `(data, error)` pair of the source:
transport failure gives `(None, None)`; HTTP 200 gives the parsed (or
raw-wrapped) body and no error; any other status gives no payload and a
structured error wrapping the parsed-or-wrapped body. -/
def fetch_route (orig_coords dest_coords : Json) (key : String)
    (resp : Transport) : Option Json × Option RouteError :=
  match resp with
  | .fail _ => (none, none)
  | .ok status text j =>
    let data := j.getD (Json.obj [("raw", .str text)])
    if status = 200 then (some data, none)
    else
      let err := match data with
        | .obj kvs => Json.obj kvs
        | other => Json.obj [("error", .str (pyStr other))]
      (none, some ⟨status, err⟩)

/-- Result of `read_api_key`: a returned credential or `sys.exit(1)`. -/
inductive KeyResult where
  | key (k : String) : KeyResult
  | exit1 : KeyResult

/-- `read_api_key()`: use the environment variable when it is truthy
(non-empty before stripping), returning its stripped value; otherwise prompt
and exit with status 1 when the stripped entry is empty. -/
def read_api_key (envKey : Option String) (promptEntry : String) : KeyResult :=
  match envKey with
  | some k =>
    if k ≠ "" then .key (pyStrip k)
    else promptBranch
  | none => promptBranch
where
  promptBranch : KeyResult :=
    let k := pyStrip promptEntry
    if k = "" then .exit1 else .key k

example : geocode_address "a" "k" (.ok 200 "nope" none) = .error "JSONDecodeError" := rfl
example : read_api_key (some "  ") "x" = .key "" := rfl
example : read_api_key none "  " = .exit1 := rfl

/-- Python iteration over a value (`for x in v`): lists yield elements,
strings yield characters, dicts yield keys; other values raise. -/
def pyIter (v : Json) : Py (List Json) :=
  match v with
  | .arr xs => .ok xs
  | .str s => .ok (s.toList.map (fun c => .str (String.mk [c])))
  | .obj kvs => .ok (kvs.map (fun kv => .str kv.1))
  | _ => .error "TypeError"

/-- Body of the step loop of `print_route`: one numbered line per step, with
the instruction (default `"N/A"`) and, when the step distance converts, a
two-decimal distance parenthetical in the chosen unit. -/
def render_step (unit_system : String) (idx : ℕ) (step : Json) : Py String := do
  let instruction ← pyGetD step "instruction" (.str "N/A")
  let step_m ← pyGetD step "distance" (.num (Frac.ofInt 0))
  let step_dist :=
    if unit_system = "imperial" then meters_to_miles step_m else meters_to_km step_m
  let step_label := if unit_system = "imperial" then "mi" else "km"
  match step_dist with
  | none => pure (natToStr idx ++ ". " ++ pyStr instruction)
  | some d =>
    pure (natToStr idx ++ ". " ++ pyStr instruction ++ " (" ++ formatFixed 2 d ++ " "
      ++ step_label ++ ")")

/-- The step loop of `print_route`, numbering from `idx`. -/
def renderSteps (unit_system : String) (idx : ℕ) : List Json → Py (List String)
  | [] => pure []
  | s :: rest => do
    let line ← render_step unit_system idx s
    let more ← renderSteps unit_system (idx + 1) rest
    pure (line :: more)

/-- The fuel-estimate lines of `print_route`: nonempty exactly when a rate
was supplied, the distance converted, and the unit system is metric. -/
def fuelLinesOf (rate : Option Frac) (dist_val : Option Frac) (u : String) : List String :=
  match rate, dist_val with
  | some r, some d =>
    if u = "metric" then
      ["Estimated Fuel Used: " ++ formatFixed 2 (d.mul (r.div (Frac.ofInt 100)))
        ++ " L (at " ++ formatFixed 1 r ++ " L/100km)"]
    else []
  | _, _ => []

/-- `print_route(orig, dest, data, unit_system, l_per_100km)`: the list of
strings passed to `print`, in order; `.error` models an unhandled
exception. -/
def print_route (orig dest : String) (data : Json) (unit_system : String)
    (l_per_100km : Option Frac) : Py (List String) := do
  let routes ← pyGetD data "routes" (.arr [])
  if !truthy routes then pure ["Error: No routes found in the response."]
  else do
    let route ← pyIndex0 routes
    let segments ← pyGetD route "segments" (.arr [])
    if !truthy segments then pure ["Error: No segments found in the route."]
    else do
      let segment ← pyIndex0 segments
      let duration_s ← pyGetNone segment "duration"
      let distance_m ← pyGetNone segment "distance"
      let dur_str :=
        match duration_s with
        | .null => "N/A"
        | v => seconds_to_hms v
      let dist_val :=
        if unit_system = "imperial" then meters_to_miles distance_m
        else meters_to_km distance_m
      let dist_label := if unit_system = "imperial" then "miles" else "km"
      let dist_str :=
        match dist_val with
        | none => "N/A"
        | some d => formatFixed 2 d ++ " " ++ dist_label
      let fuelLines : List String := fuelLinesOf l_per_100km dist_val unit_system
      let steps ← pyGetD segment "steps" (.arr [])
      if truthy steps then do
        let elems ← pyIter steps
        let stepLines ← renderSteps unit_system 1 elems
        pure (["\nAPI Status: Successful route call.\n",
               "=============================================",
               "Directions from " ++ orig ++ " to " ++ dest,
               "Trip Duration: " ++ dur_str,
               "Distance: " ++ dist_str]
              ++ fuelLines
              ++ ["============================================="]
              ++ stepLines
              ++ ["=============================================\n"])
      else
        pure (["\nAPI Status: Successful route call.\n",
               "=============================================",
               "Directions from " ++ orig ++ " to " ++ dest,
               "Trip Duration: " ++ dur_str,
               "Distance: " ++ dist_str]
              ++ fuelLines
              ++ ["============================================="]
              ++ ["No step-by-step directions available."]
              ++ ["=============================================\n"])

/-- The status dispatch of `main` on a structured directions error: fixed
messages for 400/401/403/429 and the generic
`f"Error {status}: {message}"` fallback otherwise. -/
def dispatch_error (status : ℤ) (message : Json) : String :=
  if status = 401 then "Error 401: Unauthorized. Check your API key (ORS_API_KEY)."
  else if status = 403 then
    "Error 403: Forbidden. Your API key may not have access to this endpoint."
  else if status = 429 then "Error 429: Rate limit exceeded. Please wait and try again later."
  else if status = 400 then "Error 400: Bad request. Check coordinates or request body."
  else "Error " ++ intToStr status ++ ": " ++ pyStr message

/-- A network request attempted during a loop iteration. -/
inductive NetCall where
  | geocode (address : String) : NetCall
  | directions (origCoords destCoords : Json) : NetCall

/-- Observable outcome of one iteration of the interactive loop: the
network calls attempted (in order), the strings printed after the prompts,
and whether the loop was exited. -/
structure IterOut where
  calls : List NetCall
  printed : List String
  quit : Bool

/-- One iteration of the `while True` loop of `main`, with the raw prompt
entries and the HTTP outcomes supplied as oracles (`geo` maps the address
text sent to the geocoder to its HTTP outcome; `dir` is the outcome of the
directions call). -/
def loop_iter (key unit_system : String) (l_per_100km : Option Frac)
    (origRaw destRaw : String) (geo : String → Transport) (dir : Transport) :
    Py IterOut := do
  let orig := pyStrip origRaw
  if pyLower orig = "quit" ∨ pyLower orig = "q" then
    pure ⟨[], [], true⟩
  else do
    let dest := pyStrip destRaw
    if pyLower dest = "quit" ∨ pyLower dest = "q" then
      pure ⟨[], [], true⟩
    else do
      let orig_coords ← geocode_address orig key (geo orig)
      let dest_coords ← geocode_address dest key (geo dest)
      let geoCalls := [NetCall.geocode orig, NetCall.geocode dest]
      match orig_coords, dest_coords with
      | some oc, some dc => do
        let (data, error) := fetch_route oc dc key dir
        let calls := geoCalls ++ [NetCall.directions oc dc]
        match error with
        | some err => pure ⟨calls, [dispatch_error err.status err.message], false⟩
        | none => do
          let lines ← print_route orig dest (data.getD .null) unit_system l_per_100km
          pure ⟨calls, lines, false⟩
      | _, _ =>
        pure ⟨geoCalls, ["Unable to geocode one or both addresses. Please try again.\n"], false⟩

/-- Numeric view of a JSON value (Python numbers and bools are comparable
with integers). -/
def jsonNumVal : Json → Option Frac
  | .num q => some q
  | .bool b => some (Frac.ofInt (if b then 1 else 0))
  | _ => none

/-- Is the value a dict? -/
def isObjB : Json → Bool
  | .obj _ => true
  | _ => false

/-- Is the value numeric (a number or a bool)? -/
def isNumB : Json → Bool
  | .num _ => true
  | .bool _ => true
  | _ => false

/-- A `steps` value that the step loop of `print_route` can consume without
raising: falsy, or a list of dicts. -/
def goodSteps (steps : Json) : Bool :=
  if truthy steps then
    match steps with
    | .arr xs => xs.all isObjB
    | _ => false
  else true

/-- A payload shape on which `print_route` cannot raise: a dict whose
`routes` (when truthy) is a list headed by a dict, whose `segments` (when
truthy) is a list headed by a dict, whose `steps` satisfies `goodSteps`. -/
def goodRouteData (data : Json) : Bool :=
  match data with
  | .obj kvs =>
    let routes := objGetD kvs "routes" (.arr [])
    if truthy routes then
      match routes with
      | .arr (.obj rkvs :: _) =>
        let segments := objGetD rkvs "segments" (.arr [])
        if truthy segments then
          match segments with
          | .arr (.obj skvs :: _) => goodSteps (objGetD skvs "steps" (.arr []))
          | _ => false
        else true
      | _ => false
    else true
  | _ => false

/-- A `coordinates` value on which `geocode_address` cannot raise: falsy,
or a list that has a length other than two or numeric elements. -/
def goodCoords (coords : Json) : Bool :=
  if truthy coords then
    match coords with
    | .arr xs => decide (xs.length ≠ 2) || xs.all isNumB
    | _ => false
  else true

/-- A parsed 200-response body on which `geocode_address` cannot raise: a
dict whose `features` (when truthy) is a list headed by a dict whose
`geometry` is a dict with `goodCoords` coordinates. -/
def goodGeoBody (d : Json) : Bool :=
  match d with
  | .obj kvs =>
    let feats := objGetD kvs "features" (.arr [])
    if truthy feats then
      match feats with
      | .arr (.obj fkvs :: _) =>
        match objGetD fkvs "geometry" (.obj []) with
        | .obj gkvs => goodCoords (objGetD gkvs "coordinates" .null)
        | _ => false
      | _ => false
    else true
  | _ => false

/-- Does a printed line carry the fuel estimate? -/
def isFuelLine (l : String) : Bool :=
  "Estimated Fuel Used:".toList.isPrefixOf l.toList

/-- Does the printed output contain a fuel-estimate line? -/
def hasFuelLine (lines : List String) : Bool :=
  lines.any isFuelLine

/-- Concrete fixture: a geocoder 200-body whose top feature resolves to the
coordinates `(2, 45)`. -/
def exGeoBody : Json :=
  .obj [("features",
    .arr [.obj [("geometry",
      .obj [("coordinates",
        .arr [.num (Frac.ofInt 2), .num (Frac.ofInt 45)])])]])]

/-- Concrete fixture: the coordinate list `[2, 45]`. -/
def exCoords : Json := .arr [.num (Frac.ofInt 2), .num (Frac.ofInt 45)]

/-- Concrete fixture: a geocoder 200-body whose top feature has longitude
200 — parseable but out of range. -/
def exGeoBody200 : Json :=
  .obj [("features",
    .arr [.obj [("geometry",
      .obj [("coordinates",
        .arr [.num (Frac.ofInt 200), .num (Frac.ofInt 45)])])]])]

/-- Concrete fixture: a segment of duration 1800 s and distance 10000 m. -/
def exSegment : Json :=
  .obj [("duration", .num (Frac.ofInt 1800)), ("distance", .num (Frac.ofInt 10000))]

/-- Concrete fixture: a directions payload with one route and one segment
(`exSegment`) and no steps. -/
def exRouteData : Json := .obj [("routes", .arr [.obj [("segments", .arr [exSegment])]])]

/-! ### Value-level lemmas about the fraction arithmetic -/

lemma Frac.den_q_pos (f : Frac) : (0 : ℚ) < (f.den : ℚ) := by
  exact_mod_cast f.den_pos

lemma Frac.toRat_ofInt (n : ℤ) : (Frac.ofInt n).toRat = (n : ℚ) := by
  simp [Frac.ofInt, Frac.toRat]

lemma Frac.ble_iff (a b : Frac) : a.ble b = true ↔ a.toRat ≤ b.toRat := by
  have ha := a.den_q_pos
  have hb := b.den_q_pos
  rw [Frac.ble, Frac.toRat, Frac.toRat, decide_eq_true_iff, div_le_div_iff ha hb]
  constructor
  · intro h; exact_mod_cast h
  · intro h; exact_mod_cast h

lemma Frac.blt_iff (a b : Frac) : a.blt b = true ↔ a.toRat < b.toRat := by
  have ha := a.den_q_pos
  have hb := b.den_q_pos
  rw [Frac.blt, Frac.toRat, Frac.toRat, decide_eq_true_iff, div_lt_div_iff ha hb]
  constructor
  · intro h; exact_mod_cast h
  · intro h; exact_mod_cast h

lemma Frac.toRat_mul (a b : Frac) : (a.mul b).toRat = a.toRat * b.toRat := by
  simp only [Frac.mul, Frac.toRat]
  push_cast
  rw [div_mul_div_comm]

lemma Frac.toRat_div_pos (a b : Frac) (h : 0 < b.num) : (a.div b).toRat = a.toRat / b.toRat := by
  have hne : b.num ≠ 0 := ne_of_gt h
  have hsign : Int.sign b.num = 1 := Int.sign_eq_one_of_pos h
  have ha := a.den_q_pos
  have hb := b.den_q_pos
  have hbn : (0 : ℚ) < (b.num : ℚ) := by exact_mod_cast h
  simp only [Frac.div, hne, dite_false, Frac.toRat, hsign]
  have habs : (b.num.natAbs : ℚ) = (b.num : ℚ) := by
    rw [Int.cast_natAbs]
    push_cast
    exact abs_of_pos hbn
  push_cast
  rw [habs]
  field_simp

lemma Frac.toRat_eq_zero_iff (f : Frac) : f.toRat = 0 ↔ f.num = 0 := by
  rw [Frac.toRat, div_eq_zero_iff]
  have : ((f.den : ℚ)) ≠ 0 := ne_of_gt f.den_q_pos
  simp_all [Int.cast_eq_zero]

/-- `pyRound` rounds to a nearest integer: the result is within one half of
the value. -/
lemma pyRound_nearest (q : Frac) : |q.toRat - (pyRound q : ℚ)| ≤ 1 / 2 := by
  have hd : (0 : ℤ) < (q.den : ℤ) := by exact_mod_cast q.den_pos
  have hdq : (0 : ℚ) < (q.den : ℚ) := q.den_q_pos
  rw [pyRound]
  set f := Int.fdiv q.num q.den with hfdef
  set r := q.num - f * q.den with hrdef
  have hfe : f = q.num / (q.den : ℤ) := Int.fdiv_eq_ediv _ hd.le
  have hr0 : 0 ≤ r := by
    have h := Int.emod_nonneg q.num (ne_of_gt hd)
    rw [Int.emod_def] at h
    rw [hrdef, hfe]
    linarith
  have hrlt : r < q.den := by
    have h := Int.emod_lt_of_pos q.num hd
    rw [Int.emod_def] at h
    rw [hrdef, hfe]
    linarith
  have heq : q.toRat - (f : ℚ) = (r : ℚ) / (q.den : ℚ) := by
    rw [Frac.toRat, hrdef]
    push_cast
    field_simp
    ring
  have hrq0 : (0 : ℚ) ≤ (r : ℚ) := by exact_mod_cast hr0
  have hrqlt : (r : ℚ) < (q.den : ℚ) := by exact_mod_cast hrlt
  by_cases h1 : 2 * r < (q.den : ℤ)
  · rw [if_pos h1, abs_le]
    have h1q : 2 * (r : ℚ) < (q.den : ℚ) := by exact_mod_cast h1
    constructor
    · have := div_nonneg hrq0 hdq.le
      linarith [heq]
    · have : q.toRat - (f : ℚ) ≤ 1 / 2 := by
        rw [heq, div_le_iff hdq]
        linarith
      linarith
  · rw [if_neg h1]
    have h1q : (q.den : ℚ) ≤ 2 * (r : ℚ) := by
      have := not_lt.mp h1
      exact_mod_cast this
    have hub : q.toRat - ((f : ℚ) + 1) ≤ 1 / 2 := by
      have hlt1 : (r : ℚ) / (q.den : ℚ) < 1 := (div_lt_one hdq).mpr hrqlt
      linarith [heq, hlt1]
    have hlb : -(1 / 2) ≤ q.toRat - ((f : ℚ) + 1) := by
      have hge : 1 / 2 ≤ (r : ℚ) / (q.den : ℚ) := by
        rw [le_div_iff hdq]
        linarith
      linarith [heq, hge]
    by_cases h2 : 2 * r > (q.den : ℤ)
    · rw [if_pos h2, abs_le]
      constructor
      · push_cast
        linarith [hlb]
      · push_cast
        linarith [hub]
    · by_cases h3 : 2 ∣ f
      · rw [if_neg h2, if_pos h3, abs_le]
        have htie : 2 * r = (q.den : ℤ) := le_antisymm (not_lt.mp h2) (not_lt.mp h1)
        have htieq : (r : ℚ) / (q.den : ℚ) = 1 / 2 := by
          have h2q : 2 * (r : ℚ) = (q.den : ℚ) := by exact_mod_cast htie
          field_simp
          linarith
        constructor
        · linarith [heq, htieq]
        · linarith [heq, htieq]
      · rw [if_neg h2, if_neg h3, abs_le]
        have htie : 2 * r = (q.den : ℤ) := le_antisymm (not_lt.mp h2) (not_lt.mp h1)
        have htieq : (r : ℚ) / (q.den : ℚ) = 1 / 2 := by
          have h2q : 2 * (r : ℚ) = (q.den : ℚ) := by exact_mod_cast htie
          field_simp
          linarith
        constructor
        · push_cast
          linarith [heq, htieq]
        · push_cast
          linarith [heq, htieq]

/-! ### Monad, string and digit helper lemmas -/

lemma py_bind_ok {α β : Type} {x : Py α} {f : α → Py β} {b : β}
    (h : x >>= f = .ok b) : ∃ a, x = .ok a ∧ f a = .ok b := by
  cases x with
  | ok a => exact ⟨a, rfl, h⟩
  | error e => simp [Bind.bind, Except.bind] at h

lemma string_toList_append (a b : String) : (a ++ b).toList = a.toList ++ b.toList := by
  cases a
  cases b
  rfl

lemma digitChar_ne_E {d : ℕ} (h : d < 10) : ('E' == Nat.digitChar d) = false := by
  interval_cases d <;> rfl

lemma natToStrAux_starts_digit (fuel : ℕ) :
    ∀ n acc, (∃ d rest, acc = Nat.digitChar d :: rest ∧ d < 10) →
      ∃ d rest, natToStrAux fuel n acc = Nat.digitChar d :: rest ∧ d < 10 := by
  induction fuel with
  | zero => intro n acc hacc; exact hacc
  | succ fuel ih =>
    intro n acc hacc
    rw [natToStrAux]
    by_cases h : n < 10
    · rw [if_pos h]
      exact ⟨n, acc, rfl, h⟩
    · rw [if_neg h]
      exact ih (n / 10) _ ⟨n % 10, acc, rfl, Nat.mod_lt _ (by norm_num)⟩

lemma natToStr_starts_digit (n : ℕ) :
    ∃ d rest, (natToStr n).toList = Nat.digitChar d :: rest ∧ d < 10 := by
  rw [natToStr]
  show ∃ d rest, natToStrAux (n + 1) n [] = Nat.digitChar d :: rest ∧ d < 10
  rw [natToStrAux]
  by_cases h : n < 10
  · rw [if_pos h]
    exact ⟨n, [], rfl, h⟩
  · rw [if_neg h]
    exact natToStrAux_starts_digit n (n / 10) _ ⟨n % 10, [], rfl, Nat.mod_lt _ (by norm_num)⟩

lemma isFuelLine_of_head {l : String} {c : Char} {rest : List Char}
    (hl : l.toList = c :: rest) (hc : ('E' == c) = false) : isFuelLine l = false := by
  rw [isFuelLine, hl]
  show List.isPrefixOf ('E' :: "stimated Fuel Used:".toList) (c :: rest) = false
  rw [List.isPrefixOf]
  simp [hc]

lemma isFuelLine_step_line (idx : ℕ) (s : String) :
    isFuelLine (natToStr idx ++ s) = false := by
  obtain ⟨d, rest, hd, hdlt⟩ := natToStr_starts_digit idx
  have : (natToStr idx ++ s).toList = Nat.digitChar d :: (rest ++ s.toList) := by
    rw [string_toList_append, hd]
    rfl
  exact isFuelLine_of_head this (digitChar_ne_E hdlt)

/-! ### Claim theorems -/

/-- C6: for every numeric input `m`, `meters_to_km m` equals `m / 1000` and
`meters_to_miles m` equals `m / 1609.344`; for every non-numeric or missing
input both return the unrepresentable-value marker `None` (and, being total
functions into `Option`, never raise). -/
theorem meters_conversion_spec (m : Json) :
    (∀ q, pyFloat m = some q →
      (meters_to_km m).map Frac.toRat = some (q.toRat / 1000) ∧
      (meters_to_miles m).map Frac.toRat = some (q.toRat / (1609.344 : ℚ))) ∧
    (pyFloat m = none → meters_to_km m = none ∧ meters_to_miles m = none) := by
  constructor
  · intro q hq
    constructor
    · rw [meters_to_km, hq, Option.map_some', Option.map_some']
      have h1000 : (Frac.ofInt 1000).num = 1000 := rfl
      have := Frac.toRat_div_pos q (Frac.ofInt 1000) (by rw [h1000]; norm_num)
      rw [this, Frac.toRat_ofInt]
      norm_num
    · rw [meters_to_miles, hq, Option.map_some', Option.map_some']
      have := Frac.toRat_div_pos q ⟨1609344, 1000, by norm_num⟩ (by norm_num)
      rw [this]
      have : (Frac.mk 1609344 1000 (by norm_num)).toRat = (1609.344 : ℚ) := by
        rw [Frac.toRat]
        norm_num
      rw [this]
  · intro hq
    rw [meters_to_km, meters_to_miles, hq]
    exact ⟨rfl, rfl⟩

/-- C6 witness: the theorem applied to the numeric input `5000` and to the
non-numeric input `None`. -/
theorem meters_conversion_spec_witness :
    ((meters_to_km (.num (Frac.ofInt 5000))).map Frac.toRat
      = some ((Frac.ofInt 5000).toRat / 1000) ∧
     (meters_to_miles (.num (Frac.ofInt 5000))).map Frac.toRat
      = some ((Frac.ofInt 5000).toRat / (1609.344 : ℚ))) ∧
    (meters_to_km .null = none ∧ meters_to_miles .null = none) :=
  ⟨(meters_conversion_spec (.num (Frac.ofInt 5000))).1 (Frac.ofInt 5000) rfl,
   (meters_conversion_spec .null).2 rfl⟩

/-- C5: on numeric input, `seconds_to_hms` rounds to a nearest integer and
renders zero-padded `H:MM:SS` with minutes and seconds between 0 and 59 and
hours uncapped; non-numeric or missing input yields `"N/A"`; in particular
`3725 ↦ "01:02:05"`, `"bad" ↦ "N/A"`, and `90061 ↦ "25:01:01"` (hours
exceed 23, no day rollover). -/
theorem seconds_to_hms_spec (s : Json) :
    (∀ q, pyFloat s = some q →
      ∃ h m sec : ℤ, 0 ≤ m ∧ m < 60 ∧ 0 ≤ sec ∧ sec < 60 ∧
        h * 3600 + m * 60 + sec = pyRound q ∧
        |q.toRat - (pyRound q : ℚ)| ≤ 1 / 2 ∧
        seconds_to_hms s = padInt2 h ++ ":" ++ padInt2 m ++ ":" ++ padInt2 sec) ∧
    (pyFloat s = none → seconds_to_hms s = "N/A") ∧
    seconds_to_hms (.num (Frac.ofInt 3725)) = "01:02:05" ∧
    seconds_to_hms (.str "bad") = "N/A" ∧
    seconds_to_hms (.num (Frac.ofInt 90061)) = "25:01:01" := by
  refine ⟨?_, ?_, rfl, rfl, rfl⟩
  · intro q hq
    have h3600 : Int.fdiv (pyRound q) 3600 = pyRound q / 3600 :=
      Int.fdiv_eq_ediv _ (by norm_num)
    have h60 : Int.fdiv (Int.emod (pyRound q) 3600) 60 = (Int.emod (pyRound q) 3600) / 60 :=
      Int.fdiv_eq_ediv _ (by norm_num)
    have hm1 : Int.emod (pyRound q) 3600 = pyRound q % 3600 := rfl
    have hm2 : Int.emod (pyRound q) 60 = pyRound q % 60 := rfl
    refine ⟨Int.fdiv (pyRound q) 3600, Int.fdiv (Int.emod (pyRound q) 3600) 60,
      Int.emod (pyRound q) 60, ?_, ?_, ?_, ?_, ?_, pyRound_nearest q, ?_⟩
    · rw [h60, hm1]; omega
    · rw [h60, hm1]; omega
    · rw [hm2]; omega
    · rw [hm2]; omega
    · rw [h3600, h60, hm1, hm2]; omega
    · simp only [seconds_to_hms, hq]
  · intro hq
    rw [seconds_to_hms, hq]

/-- C5 witness: the theorem applied to the numeric input `7325.4`. -/
theorem seconds_to_hms_spec_witness :
    ∃ h m sec : ℤ, 0 ≤ m ∧ m < 60 ∧ 0 ≤ sec ∧ sec < 60 ∧
      h * 3600 + m * 60 + sec = pyRound ⟨73254, 10, by norm_num⟩ ∧
      |Frac.toRat ⟨73254, 10, by norm_num⟩ - (pyRound ⟨73254, 10, by norm_num⟩ : ℚ)| ≤ 1 / 2 ∧
      seconds_to_hms (.num ⟨73254, 10, by norm_num⟩)
        = padInt2 h ++ ":" ++ padInt2 m ++ ":" ++ padInt2 sec :=
  (seconds_to_hms_spec (.num ⟨73254, 10, by norm_num⟩)).1 ⟨73254, 10, by norm_num⟩ rfl

/-- C7 counterexample: with an environment variable consisting only of
whitespace, `read_api_key` neither returns a non-empty credential nor
terminates — it returns the empty string (the variable is truthy before
stripping, so it is used, and stripping empties it). -/
theorem read_api_key_whitespace_env_cex :
    read_api_key (some " ") "entry" = .key "" ∧
    ¬ (read_api_key (some " ") "entry" = .exit1 ∨
       ∃ k, read_api_key (some " ") "entry" = .key k ∧ k ≠ "") := by
  refine ⟨rfl, ?_⟩
  intro h
  rcases h with h | ⟨k, hk, hne⟩
  · rw [show read_api_key (some " ") "entry" = .key "" from rfl] at h
    exact KeyResult.noConfusion h
  · rw [show read_api_key (some " ") "entry" = .key "" from rfl] at hk
    injection hk with hk
    exact hne hk.symm

/-- C7 (amended): the environment variable is used whenever it is non-empty
before trimming, and its trimmed value is returned (possibly empty when the
variable is all whitespace); when the variable is absent or empty the user
is prompted, an entry that is empty after trimming exits with status 1, and
a non-empty trimmed entry is returned. -/
theorem read_api_key_spec (envKey : Option String) (entry : String) :
    (∀ k, envKey = some k → k ≠ "" → read_api_key envKey entry = .key (pyStrip k)) ∧
    ((envKey = none ∨ envKey = some "") →
      (pyStrip entry = "" → read_api_key envKey entry = .exit1) ∧
      (pyStrip entry ≠ "" → read_api_key envKey entry = .key (pyStrip entry))) := by
  constructor
  · intro k hk hne
    subst hk
    rw [read_api_key, if_pos hne]
  · intro henv
    constructor
    · intro hempty
      rcases henv with h | h <;> subst h
      · rw [read_api_key, read_api_key.promptBranch, if_pos hempty]
      · rw [read_api_key, if_neg (by simp), read_api_key.promptBranch, if_pos hempty]
    · intro hne
      rcases henv with h | h <;> subst h
      · rw [read_api_key, read_api_key.promptBranch, if_neg hne]
      · rw [read_api_key, if_neg (by simp), read_api_key.promptBranch, if_neg hne]

/-- C7 witness: the theorem applied to a present, non-empty variable and to
an absent variable with a non-empty prompt entry. -/
theorem read_api_key_spec_witness :
    read_api_key (some " secret ") "x" = .key (pyStrip " secret ") ∧
    read_api_key none " typed " = .key (pyStrip " typed ") :=
  ⟨(read_api_key_spec (some " secret ") "x").1 " secret " rfl (by decide),
   ((read_api_key_spec none " typed ").2 (Or.inl rfl)).2 (by decide)⟩

/-- C1: `fetch_route` returns exactly one of three outcomes and never both a
payload and a structured error: transport failure gives `(None, None)`;
HTTP 200 gives the parsed-or-wrapped payload and no error; any other status
gives no payload and a structured error carrying that status and the
parsed-or-wrapped body. -/
theorem fetch_route_trichotomy (oc dc : Json) (key : String) :
    (∀ msg, fetch_route oc dc key (.fail msg) = (none, none)) ∧
    (∀ text j, fetch_route oc dc key (.ok 200 text j)
      = (some (j.getD (Json.obj [("raw", .str text)])), none)) ∧
    (∀ st text j, st ≠ 200 →
      ∃ e : RouteError,
        fetch_route oc dc key (.ok st text j) = (none, some e) ∧
        e.status = st ∧
        (∀ kvs, j = some (.obj kvs) → e.message = .obj kvs) ∧
        (j = none → e.message = .obj [("raw", .str text)]) ∧
        (∀ d, j = some d → isObjB d = false →
          e.message = .obj [("error", .str (pyStr d))])) ∧
    (∀ resp, ¬ (((fetch_route oc dc key resp).1.isSome) = true ∧
                ((fetch_route oc dc key resp).2.isSome) = true)) := by
  refine ⟨fun _ => rfl, fun _ _ => rfl, ?_, ?_⟩
  · intro st text j hst
    rw [fetch_route, if_neg hst]
    refine ⟨_, rfl, rfl, ?_, ?_, ?_⟩
    · intro kvs hj
      subst hj
      rfl
    · intro hj
      subst hj
      rfl
    · intro d hj hobj
      subst hj
      cases d <;> simp_all [isObjB, Option.getD]
  · intro resp
    rintro ⟨h1, h2⟩
    match resp with
    | .fail msg => simp [fetch_route] at h1
    | .ok st text j =>
      rw [fetch_route] at h1 h2
      by_cases hst : st = 200
      · rw [if_pos hst] at h2
        simp at h2
      · rw [if_neg hst] at h1
        simp at h1

/-- C1 witness: the theorem's non-200 branch applied to a 404 response with
an unparseable body, and its 200 and transport branches at concrete inputs. -/
theorem fetch_route_trichotomy_witness :
    fetch_route (.arr []) (.arr []) "k" (.fail "boom") = (none, none) ∧
    fetch_route (.arr []) (.arr []) "k" (.ok 200 "t" none)
      = (some (Json.obj [("raw", .str "t")]), none) ∧
    ∃ e : RouteError,
      fetch_route (.arr []) (.arr []) "k" (.ok 404 "oops" none) = (none, some e) ∧
      e.status = 404 ∧
      (∀ kvs, (none : Option Json) = some (.obj kvs) → e.message = .obj kvs) ∧
      ((none : Option Json) = none → e.message = .obj [("raw", .str "oops")]) ∧
      (∀ d, (none : Option Json) = some d → isObjB d = false →
        e.message = .obj [("error", .str (pyStr d))]) :=
  ⟨(fetch_route_trichotomy (.arr []) (.arr []) "k").1 "boom",
   (fetch_route_trichotomy (.arr []) (.arr []) "k").2.1 "t" none,
   (fetch_route_trichotomy (.arr []) (.arr []) "k").2.2.1 404 "oops" none (by decide)⟩

/-- C9: an origin or destination entry equal to `"quit"`/`"q"`
case-insensitively after trimming terminates the loop immediately, even
mid-pair, with no network call attempted and nothing printed. -/
theorem quit_terminates_before_network (key unit_system : String)
    (l_per_100km : Option Frac) (origRaw destRaw : String)
    (geo : String → Transport) (dir : Transport) :
    ((pyLower (pyStrip origRaw) = "quit" ∨ pyLower (pyStrip origRaw) = "q") →
      loop_iter key unit_system l_per_100km origRaw destRaw geo dir
        = .ok ⟨[], [], true⟩) ∧
    (¬ (pyLower (pyStrip origRaw) = "quit" ∨ pyLower (pyStrip origRaw) = "q") →
      (pyLower (pyStrip destRaw) = "quit" ∨ pyLower (pyStrip destRaw) = "q") →
      loop_iter key unit_system l_per_100km origRaw destRaw geo dir
        = .ok ⟨[], [], true⟩) := by
  constructor
  · intro h
    rw [loop_iter, if_pos h]
    rfl
  · intro h1 h2
    rw [loop_iter, if_neg h1, if_pos h2]
    rfl

/-- C9 witness: the theorem applied to `" QUIT "` at the origin prompt and
to `"q"` at the destination prompt. -/
theorem quit_terminates_before_network_witness :
    loop_iter "k" "metric" none " QUIT " "Paris" (fun _ => .fail "net") (.fail "net")
      = .ok ⟨[], [], true⟩ ∧
    loop_iter "k" "metric" none "Paris" " q" (fun _ => .fail "net") (.fail "net")
      = .ok ⟨[], [], true⟩ :=
  ⟨(quit_terminates_before_network "k" "metric" none " QUIT " "Paris"
      (fun _ => .fail "net") (.fail "net")).1 (Or.inl rfl),
   (quit_terminates_before_network "k" "metric" none "Paris" " q"
      (fun _ => .fail "net") (.fail "net")).2 (by decide) (Or.inr rfl)⟩

lemma ok_bind {α β : Type} (a : α) (f : α → Py β) : (Except.ok a : Py α) >>= f = f a := rfl

/-- C8: when `fetch_route` returns a structured error, the loop prints the
status-specific message for 400/401/403/429 and the generic
`Error {status}: {message}` fallback for every other status, and continues
(the iteration ends with `quit = false`). -/
theorem error_dispatch_continues (key unit_system : String) (l_per_100km : Option Frac)
    (origRaw destRaw : String) (geo : String → Transport)
    (oc dc : Json) (st : ℤ) (text : String) (j : Option Json)
    (horig : ¬ (pyLower (pyStrip origRaw) = "quit" ∨ pyLower (pyStrip origRaw) = "q"))
    (hdest : ¬ (pyLower (pyStrip destRaw) = "quit" ∨ pyLower (pyStrip destRaw) = "q"))
    (hga : geocode_address (pyStrip origRaw) key (geo (pyStrip origRaw)) = .ok (some oc))
    (hgb : geocode_address (pyStrip destRaw) key (geo (pyStrip destRaw)) = .ok (some dc))
    (hst : st ≠ 200) :
    ∃ msg, loop_iter key unit_system l_per_100km origRaw destRaw geo (.ok st text j)
        = .ok ⟨[.geocode (pyStrip origRaw), .geocode (pyStrip destRaw), .directions oc dc],
               [dispatch_error st msg], false⟩ ∧
      (st = 401 → dispatch_error st msg
        = "Error 401: Unauthorized. Check your API key (ORS_API_KEY).") ∧
      (st = 403 → dispatch_error st msg
        = "Error 403: Forbidden. Your API key may not have access to this endpoint.") ∧
      (st = 429 → dispatch_error st msg
        = "Error 429: Rate limit exceeded. Please wait and try again later.") ∧
      (st = 400 → dispatch_error st msg
        = "Error 400: Bad request. Check coordinates or request body.") ∧
      (st ≠ 401 → st ≠ 403 → st ≠ 429 → st ≠ 400 →
        dispatch_error st msg = "Error " ++ intToStr st ++ ": " ++ pyStr msg) := by
  simp only [loop_iter, if_neg horig, if_neg hdest, hga, hgb, ok_bind, fetch_route,
    if_neg hst]
  refine ⟨_, rfl, ?_, ?_, ?_, ?_, ?_⟩
  · intro h; subst h; rfl
  · intro h; subst h; rfl
  · intro h; subst h; rfl
  · intro h; subst h; rfl
  · intro h1 h2 h3 h4
    rw [dispatch_error, if_neg h1, if_neg h2, if_neg h3, if_neg h4]

/-- C8 witness: the theorem applied to a 401 directions response after two
successful geocodes. -/
theorem error_dispatch_continues_witness :
    ∃ msg, loop_iter "k" "metric" none "Paris" "Lyon"
        (fun _ => .ok 200 "" (some exGeoBody))
        (.ok 401 "" (some (.obj [("error", .str "unauthorized")])))
        = .ok ⟨[.geocode (pyStrip "Paris"), .geocode (pyStrip "Lyon"),
                .directions exCoords exCoords],
               [dispatch_error 401 msg], false⟩ ∧
      ((401 : ℤ) = 401 → dispatch_error 401 msg
        = "Error 401: Unauthorized. Check your API key (ORS_API_KEY).") ∧
      ((401 : ℤ) = 403 → dispatch_error 401 msg
        = "Error 403: Forbidden. Your API key may not have access to this endpoint.") ∧
      ((401 : ℤ) = 429 → dispatch_error 401 msg
        = "Error 429: Rate limit exceeded. Please wait and try again later.") ∧
      ((401 : ℤ) = 400 → dispatch_error 401 msg
        = "Error 400: Bad request. Check coordinates or request body.") ∧
      ((401 : ℤ) ≠ 401 → (401 : ℤ) ≠ 403 → (401 : ℤ) ≠ 429 → (401 : ℤ) ≠ 400 →
        dispatch_error 401 msg = "Error " ++ intToStr 401 ++ ": " ++ pyStr msg) :=
  error_dispatch_continues "k" "metric" none "Paris" "Lyon"
    (fun _ => .ok 200 "" (some exGeoBody)) exCoords exCoords 401 ""
    (some (.obj [("error", .str "unauthorized")]))
    (by decide) (by decide) rfl rfl (by decide)

lemma intLeJson_true {c : ℤ} {v : Json} (h : intLeJson c v = .ok true) :
    ∃ q, jsonNumVal v = some q ∧ (c : ℚ) ≤ q.toRat := by
  cases v with
  | num q =>
    refine ⟨q, rfl, ?_⟩
    rw [intLeJson] at h
    injection h with h
    have := (Frac.ble_iff (Frac.ofInt c) q).mp h
    rwa [Frac.toRat_ofInt] at this
  | bool b =>
    refine ⟨Frac.ofInt (if b then 1 else 0), rfl, ?_⟩
    rw [intLeJson] at h
    injection h with h
    rw [Frac.toRat_ofInt]
    have := of_decide_eq_true h
    exact_mod_cast this
  | null => simp [intLeJson] at h
  | str s => simp [intLeJson] at h
  | arr xs => simp [intLeJson] at h
  | obj kvs => simp [intLeJson] at h

lemma jsonLeInt_true {v : Json} {c : ℤ} (h : jsonLeInt v c = .ok true) :
    ∃ q, jsonNumVal v = some q ∧ q.toRat ≤ (c : ℚ) := by
  cases v with
  | num q =>
    refine ⟨q, rfl, ?_⟩
    rw [jsonLeInt] at h
    injection h with h
    have := (Frac.ble_iff q (Frac.ofInt c)).mp h
    rwa [Frac.toRat_ofInt] at this
  | bool b =>
    refine ⟨Frac.ofInt (if b then 1 else 0), rfl, ?_⟩
    rw [jsonLeInt] at h
    injection h with h
    rw [Frac.toRat_ofInt]
    have := of_decide_eq_true h
    exact_mod_cast this
  | null => simp [jsonLeInt] at h
  | str s => simp [jsonLeInt] at h
  | arr xs => simp [jsonLeInt] at h
  | obj kvs => simp [jsonLeInt] at h

lemma coordInRange_true {lon lat : Json} (h : coordInRange lon lat = .ok true) :
    ∃ qlon qlat, jsonNumVal lon = some qlon ∧ jsonNumVal lat = some qlat ∧
      (-180 : ℚ) ≤ qlon.toRat ∧ qlon.toRat ≤ 180 ∧
      (-90 : ℚ) ≤ qlat.toRat ∧ qlat.toRat ≤ 90 := by
  rw [coordInRange] at h
  obtain ⟨c1, hc1, h⟩ := py_bind_ok h
  by_cases hb1 : c1 = true
  swap
  · rw [Bool.not_eq_true] at hb1
    subst hb1
    simp at h
    exact absurd h (by intro hc; injection hc with hc; exact Bool.noConfusion hc)
  subst hb1
  simp only [Bool.not_true, Bool.false_eq_true, if_false] at h
  obtain ⟨c2, hc2, h⟩ := py_bind_ok h
  by_cases hb2 : c2 = true
  swap
  · rw [Bool.not_eq_true] at hb2
    subst hb2
    simp at h
    exact absurd h (by intro hc; injection hc with hc; exact Bool.noConfusion hc)
  subst hb2
  simp only [Bool.not_true, Bool.false_eq_true, if_false] at h
  obtain ⟨c3, hc3, h⟩ := py_bind_ok h
  by_cases hb3 : c3 = true
  swap
  · rw [Bool.not_eq_true] at hb3
    subst hb3
    simp at h
    exact absurd h (by intro hc; injection hc with hc; exact Bool.noConfusion hc)
  subst hb3
  simp only [Bool.not_true, Bool.false_eq_true, if_false] at h
  obtain ⟨qlon, hlon, hge⟩ := intLeJson_true hc1
  obtain ⟨qlon2, hlon2, hle⟩ := jsonLeInt_true hc2
  obtain ⟨qlat, hlat, hge2⟩ := intLeJson_true hc3
  obtain ⟨qlat2, hlat2, hle2⟩ := jsonLeInt_true h
  rw [hlon] at hlon2
  injection hlon2 with hlon2
  rw [hlat] at hlat2
  injection hlat2 with hlat2
  subst hlon2
  subst hlat2
  refine ⟨qlon, qlat, hlon, hlat, ?_, ?_, ?_, ?_⟩
  · exact_mod_cast hge
  · exact_mod_cast hle
  · exact_mod_cast hge2
  · exact_mod_cast hle2

lemma pure_bind_py {α β : Type} (a : α) (f : α → Py β) : (pure a : Py α) >>= f = f a := rfl

lemma py_pure_eq_ok {α : Type} (a : α) : (pure a : Py α) = .ok a := rfl

lemma pure_none_ne_ok_some {α : Type} {a : α}
    (h : (pure none : Py (Option α)) = .ok (some a)) : False := by
  rw [py_pure_eq_ok] at h
  injection h with h
  exact Option.noConfusion h

/-- C2: `geocode_address` returns `None` when the status is not 200, when
the feature list is empty, when the top feature's coordinate value is
missing (falsy) or not a list of length 2, or when the coordinate is out of
range (longitude 200 with latitude 45 is rejected); every success is a pair
`[lon, lat]` with `lon ∈ [-180, 180]` and `lat ∈ [-90, 90]`, in
(longitude, latitude) order. -/
theorem geocode_address_contract (addr key text : String) (j : Option Json) :
    (∀ st : ℤ, st ≠ 200 → geocode_address addr key (.ok st text j) = .ok none) ∧
    (∀ d feats, j = some d → pyGetD d "features" (.arr []) = .ok feats →
      truthy feats = false →
      geocode_address addr key (.ok 200 text j) = .ok none) ∧
    (∀ d feats f0 geom coords, j = some d →
      pyGetD d "features" (.arr []) = .ok feats → truthy feats = true →
      pyIndex0 feats = .ok f0 → pyGetD f0 "geometry" (.obj []) = .ok geom →
      pyGetNone geom "coordinates" = .ok coords →
      (truthy coords = false ∨ ∃ xs, coords = .arr xs ∧ xs.length ≠ 2) →
      geocode_address addr key (.ok 200 text j) = .ok none) ∧
    (geocode_address addr key (.ok 200 text (some exGeoBody200)) = .ok none) ∧
    (∀ resp c, geocode_address addr key resp = .ok (some c) →
      ∃ lon lat qlon qlat, c = .arr [lon, lat] ∧
        jsonNumVal lon = some qlon ∧ jsonNumVal lat = some qlat ∧
        (-180 : ℚ) ≤ qlon.toRat ∧ qlon.toRat ≤ 180 ∧
        (-90 : ℚ) ≤ qlat.toRat ∧ qlat.toRat ≤ 90) := by
  refine ⟨?_, ?_, ?_, rfl, ?_⟩
  · intro st hst
    simp only [geocode_address]
    rw [if_pos hst]
  · intro d feats hj hfeats htr
    subst hj
    simp only [geocode_address, ne_eq, not_true_eq_false, if_false, pure_bind_py, ok_bind,
      hfeats, htr, Bool.not_false, if_true, py_pure_eq_ok]
  · intro d feats f0 geom coords hj hfeats htr hf0 hgeom hcoords hbad
    subst hj
    simp only [geocode_address, ne_eq, not_true_eq_false, if_false, pure_bind_py, ok_bind,
      hfeats, htr, Bool.not_true, Bool.false_eq_true, if_false, hf0, hgeom, hcoords]
    rcases hbad with hfalsy | ⟨xs, hxs, hlen⟩
    · simp [hfalsy, pure_bind_py, py_pure_eq_ok]
    · subst hxs
      by_cases htc : truthy (.arr xs) = true
      · have hz : ¬ ((xs.length : ℤ) = 2) := by exact_mod_cast hlen
        simp [htc, pure_bind_py, pyLen, hz, py_pure_eq_ok]
        rw [ok_bind, if_neg hz]
      · rw [Bool.not_eq_true] at htc
        simp [htc, pure_bind_py, py_pure_eq_ok]
  · intro resp c h
    match resp with
    | .fail msg => simp [geocode_address] at h
    | .ok st text j =>
      rw [geocode_address] at h
      split at h
      · exact absurd h (by simp)
      · cases j with
        | none =>
          simp only [Bind.bind, Except.bind] at h
          exact Except.noConfusion h
        | some d =>
        obtain ⟨data, hdata, h⟩ := py_bind_ok h
        obtain ⟨feats, hfeats, h⟩ := py_bind_ok h
        split at h
        · exact (pure_none_ne_ok_some h).elim
        · obtain ⟨f0, hf0, h⟩ := py_bind_ok h
          obtain ⟨geom, hgeom, h⟩ := py_bind_ok h
          obtain ⟨coords, hcoords, h⟩ := py_bind_ok h
          split at h
          · exact (pure_none_ne_ok_some h).elim
          · obtain ⟨n, hn, h⟩ := py_bind_ok h
            split at h
            · exact (pure_none_ne_ok_some h).elim
            · obtain ⟨lonlat, hll, h⟩ := py_bind_ok h
              obtain ⟨inR, hinR, h⟩ := py_bind_ok h
              split at h
              · exact (pure_none_ne_ok_some h).elim
              · rename_i hnR
                have hinRtrue : inR = true := by
                  cases inR
                  · exact absurd rfl hnR
                  · rfl
                subst hinRtrue
                rw [py_pure_eq_ok] at h
                injection h with h
                injection h with h
                obtain ⟨qlon, qlat, hlon, hlat, b1, b2, b3, b4⟩ := coordInRange_true hinR
                exact ⟨lonlat.1, lonlat.2, qlon, qlat, h.symm, hlon, hlat, b1, b2, b3, b4⟩

/-- C2 witness: the theorem's non-200 branch at status 404 and its success
branch at a 200 response resolving to the coordinates `(2, 45)`. -/
theorem geocode_address_contract_witness :
    geocode_address "addr" "k" (.ok 404 "t" (some exGeoBody)) = .ok none ∧
    ∃ lon lat qlon qlat, exCoords = .arr [lon, lat] ∧
      jsonNumVal lon = some qlon ∧ jsonNumVal lat = some qlat ∧
      (-180 : ℚ) ≤ qlon.toRat ∧ qlon.toRat ≤ 180 ∧
      (-90 : ℚ) ≤ qlat.toRat ∧ qlat.toRat ≤ 90 :=
  ⟨(geocode_address_contract "addr" "k" "t" (some exGeoBody)).1 404 (by decide),
   (geocode_address_contract "addr" "k" "t" (some exGeoBody)).2.2.2.2
     (.ok 200 "t" (some exGeoBody)) exCoords rfl⟩

lemma intLeJson_ok_of_num (c : ℤ) {v : Json} (h : isNumB v = true) :
    ∃ b, intLeJson c v = .ok b := by
  cases v with
  | num q => exact ⟨_, rfl⟩
  | bool b => exact ⟨_, rfl⟩
  | null => simp [isNumB] at h
  | str s => simp [isNumB] at h
  | arr xs => simp [isNumB] at h
  | obj kvs => simp [isNumB] at h

lemma jsonLeInt_ok_of_num (c : ℤ) {v : Json} (h : isNumB v = true) :
    ∃ b, jsonLeInt v c = .ok b := by
  cases v with
  | num q => exact ⟨_, rfl⟩
  | bool b => exact ⟨_, rfl⟩
  | null => simp [isNumB] at h
  | str s => simp [isNumB] at h
  | arr xs => simp [isNumB] at h
  | obj kvs => simp [isNumB] at h

lemma coordInRange_ok_of_num {lon lat : Json} (hlon : isNumB lon = true)
    (hlat : isNumB lat = true) : ∃ b, coordInRange lon lat = .ok b := by
  rw [coordInRange]
  obtain ⟨c1, hc1⟩ := intLeJson_ok_of_num (-180) hlon
  rw [hc1, ok_bind]
  cases c1 with
  | false => exact ⟨false, rfl⟩
  | true =>
    simp only [Bool.not_true, Bool.false_eq_true, if_false]
    obtain ⟨c2, hc2⟩ := jsonLeInt_ok_of_num 180 hlon
    rw [hc2, ok_bind]
    cases c2 with
    | false => exact ⟨false, rfl⟩
    | true =>
      simp only [Bool.not_true, Bool.false_eq_true, if_false]
      obtain ⟨c3, hc3⟩ := intLeJson_ok_of_num (-90) hlat
      rw [hc3, ok_bind]
      cases c3 with
      | false => exact ⟨false, rfl⟩
      | true =>
        simp only [Bool.not_true, Bool.false_eq_true, if_false]
        exact jsonLeInt_ok_of_num 90 hlat

lemma render_step_ok (u : String) (idx : ℕ) (kvs : List (String × Json)) :
    ∃ l, render_step u idx (.obj kvs) = .ok l := by
  rw [render_step]
  simp only [pyGetD, ok_bind]
  split
  · exact ⟨_, rfl⟩
  · exact ⟨_, rfl⟩

lemma renderSteps_ok_of_objs (u : String) (xs : List Json) (h : xs.all isObjB = true) :
    ∀ idx, ∃ lines, renderSteps u idx xs = .ok lines := by
  induction xs with
  | nil => exact fun idx => ⟨[], rfl⟩
  | cons x rest ih =>
    intro idx
    rw [List.all_cons, Bool.and_eq_true] at h
    obtain ⟨hx, hrest⟩ := h
    match x with
    | .obj kvs =>
      obtain ⟨l, hl⟩ := render_step_ok u idx kvs
      obtain ⟨lines, hlines⟩ := ih hrest (idx + 1)
      refine ⟨l :: lines, ?_⟩
      rw [renderSteps, hl, ok_bind, hlines, ok_bind, py_pure_eq_ok]
    | .null => simp [isObjB] at hx
    | .bool b => simp [isObjB] at hx
    | .num q => simp [isObjB] at hx
    | .str s => simp [isObjB] at hx
    | .arr ys => simp [isObjB] at hx

/-- C3 (amended): transport failures and non-200 statuses never raise; but
a 200 response whose body is not valid JSON raises an unhandled exception
out of `geocode_address` (`r.json()` is outside the `try`), as does a
length-2 coordinate list with non-numeric elements; on every 200 body of
`goodGeoBody` shape `geocode_address` returns normally, and on every
payload of `goodRouteData` shape `print_route` returns normally. -/
theorem no_unhandled_exception_scope (addr key : String) :
    (∀ msg, geocode_address addr key (.fail msg) = .ok none) ∧
    (∀ (st : ℤ) text j, st ≠ 200 → geocode_address addr key (.ok st text j) = .ok none) ∧
    (∀ text, geocode_address addr key (.ok 200 text none) = .error "JSONDecodeError") ∧
    (∀ text d, goodGeoBody d = true →
      ∃ r, geocode_address addr key (.ok 200 text (some d)) = .ok r) ∧
    (∀ orig dest data u rate, goodRouteData data = true →
      ∃ lines, print_route orig dest data u rate = .ok lines) := by
  refine ⟨fun _ => rfl, ?_, fun _ => rfl, ?_, ?_⟩
  · intro st text j hst
    simp only [geocode_address]
    rw [if_pos hst]
  · intro text d hgood
    cases d with
    | null => simp [goodGeoBody] at hgood
    | bool b => simp [goodGeoBody] at hgood
    | num q => simp [goodGeoBody] at hgood
    | str s => simp [goodGeoBody] at hgood
    | arr xs => simp [goodGeoBody] at hgood
    | obj kvs =>
      rw [goodGeoBody] at hgood
      simp only [geocode_address, ne_eq, not_true_eq_false, if_false, pure_bind_py,
        pyGetD, ok_bind]
      revert hgood
      generalize objGetD kvs "features" (.arr []) = feats
      intro hgood
      by_cases ht : truthy feats = true
      swap
      · rw [Bool.not_eq_true] at ht
        simp only [ht, Bool.not_false, if_true]
        exact ⟨none, rfl⟩
      · rw [if_pos ht] at hgood
        simp only [ht, Bool.not_true, Bool.false_eq_true, if_false]
        cases feats with
        | null => simp [truthy] at ht
        | bool b => simp at hgood
        | num q => simp at hgood
        | str s => simp at hgood
        | obj okvs => simp at hgood
        | arr fs =>
          cases fs with
          | nil => simp [truthy] at ht
          | cons f0 rest =>
            cases f0 with
            | null => simp at hgood
            | bool b => simp at hgood
            | num q => simp at hgood
            | str s => simp at hgood
            | arr ys => simp at hgood
            | obj fkvs =>
              have hgood2 : (match objGetD fkvs "geometry" (Json.obj []) with
                  | Json.obj gkvs => goodCoords (objGetD gkvs "coordinates" Json.null)
                  | _ => false) = true := hgood
              simp only [pyIndex0, ok_bind, pyGetD]
              revert hgood2
              generalize objGetD fkvs "geometry" (.obj []) = geom
              intro hgood2
              cases geom with
              | null => simp at hgood2
              | bool b => simp at hgood2
              | num q => simp at hgood2
              | str s => simp at hgood2
              | arr ys => simp at hgood2
              | obj gkvs =>
                have hgood3 : goodCoords (objGetD gkvs "coordinates" Json.null) = true :=
                  hgood2
                simp only [pyGetNone, pyGetD, ok_bind]
                rw [goodCoords.eq_def] at hgood3
                revert hgood3
                generalize objGetD gkvs "coordinates" .null = coords
                intro hgood3
                by_cases htc : truthy coords = true
                swap
                · rw [Bool.not_eq_true] at htc
                  simp only [htc, Bool.not_false, if_true]
                  exact ⟨none, rfl⟩
                · rw [if_pos htc] at hgood3
                  simp only [htc, Bool.not_true, Bool.false_eq_true, if_false]
                  cases coords with
                  | null => simp [truthy] at htc
                  | bool b => simp at hgood3
                  | num q => simp at hgood3
                  | str s => simp at hgood3
                  | obj okvs => simp at hgood3
                  | arr xs =>
                    simp only [pyLen, ok_bind]
                    by_cases hlen : ((xs.length : ℤ)) = 2
                    swap
                    · rw [if_pos hlen]
                      exact ⟨none, rfl⟩
                    · rw [if_neg (by simpa using hlen)]
                      have hlen2 : xs.length = 2 := by exact_mod_cast hlen
                      have hnum : xs.all isNumB = true := by
                        have hgood4 : (decide (xs.length ≠ 2) || xs.all isNumB) = true :=
                          hgood3
                        rcases Bool.or_eq_true_iff.mp hgood4 with h1 | h1
                        · exact absurd (of_decide_eq_true h1) (by simp [hlen2])
                        · exact h1
                      cases xs with
                      | nil => simp at hlen2
                      | cons x xs1 =>
                        cases xs1 with
                        | nil => simp at hlen2
                        | cons y xs2 =>
                          cases xs2 with
                          | cons z xs3 => simp at hlen2
                          | nil =>
                            rw [List.all_cons, List.all_cons] at hnum
                            simp only [List.all_nil, Bool.and_true,
                              Bool.and_eq_true] at hnum
                            obtain ⟨hx, hy⟩ := hnum
                            simp only [unpack2, ok_bind]
                            obtain ⟨b, hb⟩ := coordInRange_ok_of_num hx hy
                            rw [hb, ok_bind]
                            cases b
                            · exact ⟨none, rfl⟩
                            · exact ⟨some (.arr [x, y]), rfl⟩
  · intro orig dest data u rate hgood
    cases data with
    | null => simp [goodRouteData] at hgood
    | bool b => simp [goodRouteData] at hgood
    | num q => simp [goodRouteData] at hgood
    | str s => simp [goodRouteData] at hgood
    | arr xs => simp [goodRouteData] at hgood
    | obj kvs =>
      rw [goodRouteData] at hgood
      simp only [print_route, pyGetD, ok_bind]
      revert hgood
      generalize objGetD kvs "routes" (.arr []) = routes
      intro hgood
      by_cases ht : truthy routes = true
      swap
      · rw [Bool.not_eq_true] at ht
        simp only [ht, Bool.not_false, if_true]
        exact ⟨_, rfl⟩
      · rw [if_pos ht] at hgood
        simp only [ht, Bool.not_true, Bool.false_eq_true, if_false]
        cases routes with
        | null => simp [truthy] at ht
        | bool b => simp at hgood
        | num q => simp at hgood
        | str s => simp at hgood
        | obj okvs => simp at hgood
        | arr rs =>
          cases rs with
          | nil => simp [truthy] at ht
          | cons r0 rrest =>
            cases r0 with
            | null => simp at hgood
            | bool b => simp at hgood
            | num q => simp at hgood
            | str s => simp at hgood
            | arr ys => simp at hgood
            | obj rkvs =>
              have hgood2 : (if truthy (objGetD rkvs "segments" (Json.arr [])) = true then
                    (match objGetD rkvs "segments" (Json.arr []) with
                     | Json.arr (Json.obj skvs :: _) =>
                       goodSteps (objGetD skvs "steps" (Json.arr []))
                     | _ => false)
                  else true) = true := hgood
              simp only [pyIndex0, ok_bind, pyGetD]
              revert hgood2
              generalize objGetD rkvs "segments" (.arr []) = segments
              intro hgood2
              by_cases hts : truthy segments = true
              swap
              · rw [Bool.not_eq_true] at hts
                simp only [hts, Bool.not_false, if_true]
                exact ⟨_, rfl⟩
              · rw [if_pos hts] at hgood2
                simp only [hts, Bool.not_true, Bool.false_eq_true, if_false]
                cases segments with
                | null => simp [truthy] at hts
                | bool b => simp at hgood2
                | num q => simp at hgood2
                | str s => simp at hgood2
                | obj okvs => simp at hgood2
                | arr ss =>
                  cases ss with
                  | nil => simp [truthy] at hts
                  | cons s0 srest =>
                    cases s0 with
                    | null => simp at hgood2
                    | bool b => simp at hgood2
                    | num q => simp at hgood2
                    | str s => simp at hgood2
                    | arr ys => simp at hgood2
                    | obj skvs =>
                      have hgood3 : goodSteps (objGetD skvs "steps" (Json.arr [])) = true :=
                        hgood2
                      simp only [pyIndex0, ok_bind, pyGetNone, pyGetD]
                      rw [goodSteps.eq_def] at hgood3
                      revert hgood3
                      generalize objGetD skvs "steps" (.arr []) = steps
                      intro hgood3
                      by_cases htst : truthy steps = true
                      swap
                      · rw [Bool.not_eq_true] at htst
                        simp only [htst, Bool.false_eq_true, if_false]
                        exact ⟨_, rfl⟩
                      · rw [if_pos htst] at hgood3
                        simp only [htst, if_true]
                        cases steps with
                        | null => simp [truthy] at htst
                        | bool b => simp at hgood3
                        | num q => simp at hgood3
                        | str s => simp at hgood3
                        | obj okvs => simp at hgood3
                        | arr xs =>
                          simp only [pyIter, ok_bind]
                          obtain ⟨lines, hlines⟩ := renderSteps_ok_of_objs u xs hgood3 1
                          rw [hlines, ok_bind]
                          exact ⟨_, rfl⟩

/-- C3 counterexample: `geocode_address` raises an unhandled exception on a
200 response whose body is not valid JSON (`r.json()` raises outside the
`try`), and on a 200 response whose top feature has a length-2 coordinate
list with non-numeric elements (the range comparison raises `TypeError`). -/
theorem geocode_address_raises_cex :
    geocode_address "a" "k" (.ok 200 "not json" none) = .error "JSONDecodeError" ∧
    geocode_address "a" "k" (.ok 200 ""
      (some (.obj [("features",
        .arr [.obj [("geometry",
          .obj [("coordinates",
            .arr [.str "x", .str "y"])])]])])))
      = .error "TypeError" :=
  ⟨rfl, rfl⟩

/-- C3 witness: the amended theorem's no-raise branches applied to the
concrete well-shaped geocoder body and route payload. -/
theorem no_unhandled_exception_scope_witness :
    (∃ r, geocode_address "a" "k" (.ok 200 "t" (some exGeoBody)) = .ok r) ∧
    (∃ lines, print_route "A" "B" exRouteData "metric" (some (Frac.ofInt 8)) = .ok lines) :=
  ⟨(no_unhandled_exception_scope "a" "k").2.2.2.1 "t" exGeoBody rfl,
   (no_unhandled_exception_scope "a" "k").2.2.2.2 "A" "B" exRouteData "metric"
     (some (Frac.ofInt 8)) rfl⟩

lemma pyGetD_ok {v : Json} {k : String} {d x : Json} (h : pyGetD v k d = .ok x) :
    ∃ kvs, v = .obj kvs ∧ x = objGetD kvs k d := by
  cases v with
  | obj kvs =>
    rw [pyGetD] at h
    injection h with h
    exact ⟨kvs, rfl, h.symm⟩
  | null => simp [pyGetD] at h
  | bool b => simp [pyGetD] at h
  | num q => simp [pyGetD] at h
  | str s => simp [pyGetD] at h
  | arr xs => simp [pyGetD] at h

lemma pyIndex0_ok_obj {v x : Json} (h : pyIndex0 v = .ok x)
    {kvs : List (String × Json)} (hx : x = .obj kvs) :
    ∃ rest, v = .arr (.obj kvs :: rest) := by
  subst hx
  cases v with
  | arr xs =>
    cases xs with
    | nil => simp [pyIndex0] at h
    | cons y rest =>
      rw [pyIndex0] at h
      injection h with h
      exact ⟨rest, by rw [h]⟩
  | str s =>
    rw [pyIndex0] at h
    rcases hs : s.toList with _ | ⟨c, cs⟩ <;> rw [hs] at h
    · exact absurd h (by simp)
    · injection h with h
      exact absurd h (by simp)
  | null => simp [pyIndex0] at h
  | bool b => simp [pyIndex0] at h
  | num q => simp [pyIndex0] at h
  | obj okvs => simp [pyIndex0] at h

lemma isFuelLine_fuel_string (s : String) :
    isFuelLine ("Estimated Fuel Used: " ++ s) = true := by
  rw [isFuelLine, string_toList_append]
  rw [show ("Estimated Fuel Used: ").toList
      = ("Estimated Fuel Used:").toList ++ [' '] from rfl]
  rw [List.append_assoc, List.isPrefixOf_iff_prefix]
  exact List.prefix_append _ _

lemma isFuelLine_fixed_head {pre : String} (x : String) {c : Char} {cs : List Char}
    (hpre : pre.toList = c :: cs) (hc : ('E' == c) = false) :
    isFuelLine (pre ++ x) = false := by
  exact @isFuelLine_of_head (pre ++ x) c (cs ++ x.toList)
    (by rw [string_toList_append, hpre]; rfl) hc

lemma render_step_no_fuel {u : String} {idx : ℕ} {step : Json} {l : String}
    (h : render_step u idx step = .ok l) : isFuelLine l = false := by
  rw [render_step] at h
  obtain ⟨instr, hinstr, h⟩ := py_bind_ok h
  obtain ⟨m, hm, h⟩ := py_bind_ok h
  rcases hd : (if u = "imperial" then meters_to_miles m else meters_to_km m) with _ | d
  · rw [hd] at h
    have h2 : Except.ok (natToStr idx ++ ". " ++ pyStr instr) = Except.ok l := h
    injection h2 with h2
    subst h2
    simp only [String.append_assoc]
    exact isFuelLine_step_line idx _
  · rw [hd] at h
    have h2 : Except.ok (natToStr idx ++ ". " ++ pyStr instr ++ " (" ++ formatFixed 2 d ++ " "
        ++ (if u = "imperial" then "mi" else "km") ++ ")") = Except.ok l := h
    injection h2 with h2
    subst h2
    simp only [String.append_assoc]
    exact isFuelLine_step_line idx _

lemma renderSteps_no_fuel {u : String} :
    ∀ (xs : List Json) (idx : ℕ) (lines : List String),
      renderSteps u idx xs = .ok lines → ∀ l ∈ lines, isFuelLine l = false := by
  intro xs
  induction xs with
  | nil =>
    intro idx lines h l hl
    rw [renderSteps, py_pure_eq_ok] at h
    injection h with h
    subst h
    simp at hl
  | cons x rest ih =>
    intro idx lines h l hl
    rw [renderSteps] at h
    obtain ⟨l0, hl0, h⟩ := py_bind_ok h
    obtain ⟨rest0, hrest0, h⟩ := py_bind_ok h
    rw [py_pure_eq_ok] at h
    injection h with h
    subst h
    rcases List.mem_cons.mp hl with h1 | h1
    · subst h1
      exact render_step_no_fuel hl0
    · exact ih (idx + 1) rest0 hrest0 l h1

lemma print_route_ok_cases {orig dest u : String} {rate : Option Frac} {data : Json}
    {lines : List String} (h : print_route orig dest data u rate = .ok lines) :
    (∃ kvs, data = .obj kvs ∧ truthy (objGetD kvs "routes" (.arr [])) = false ∧
      lines = ["Error: No routes found in the response."]) ∨
    (∃ kvs rkvs rrest, data = .obj kvs ∧
      objGetD kvs "routes" (.arr []) = .arr (.obj rkvs :: rrest) ∧
      truthy (objGetD rkvs "segments" (.arr [])) = false ∧
      lines = ["Error: No segments found in the route."]) ∨
    (∃ (kvs rkvs skvs : List (String × Json)) (rrest srest : List Json)
       (durStr distStr : String) (stepLines : List String),
      data = .obj kvs ∧
      objGetD kvs "routes" (.arr []) = .arr (.obj rkvs :: rrest) ∧
      objGetD rkvs "segments" (.arr []) = .arr (.obj skvs :: srest) ∧
      (∀ l ∈ stepLines, isFuelLine l = false) ∧
      lines = ["\nAPI Status: Successful route call.\n",
               "=============================================",
               "Directions from " ++ orig ++ " to " ++ dest,
               "Trip Duration: " ++ durStr,
               "Distance: " ++ distStr]
        ++ fuelLinesOf rate (if u = "imperial"
              then meters_to_miles (objGetD skvs "distance" .null)
              else meters_to_km (objGetD skvs "distance" .null)) u
        ++ ["============================================="]
        ++ stepLines
        ++ ["=============================================\n"]) := by
  rw [print_route] at h
  obtain ⟨routes, hroutes, h⟩ := py_bind_ok h
  obtain ⟨kvs, hdata, hroutesval⟩ := pyGetD_ok hroutes
  subst hdata
  subst hroutesval
  split at h
  · rename_i htr
    rw [py_pure_eq_ok] at h
    injection h with h
    refine Or.inl ⟨kvs, rfl, ?_, h.symm⟩
    revert htr
    cases truthy (objGetD kvs "routes" (.arr [])) <;> simp
  · rename_i htr
    obtain ⟨route, hroute, h⟩ := py_bind_ok h
    obtain ⟨segments, hsegments, h⟩ := py_bind_ok h
    obtain ⟨rkvs, hrouteobj, hsegval⟩ := pyGetD_ok hsegments
    obtain ⟨rrest, hroutesarr⟩ := pyIndex0_ok_obj hroute hrouteobj
    subst hsegval
    split at h
    · rename_i hts
      rw [py_pure_eq_ok] at h
      injection h with h
      refine Or.inr (Or.inl ⟨kvs, rkvs, rrest, rfl, hroutesarr, ?_, h.symm⟩)
      revert hts
      cases truthy (objGetD rkvs "segments" (.arr [])) <;> simp
    · obtain ⟨segment, hsegment, h⟩ := py_bind_ok h
      obtain ⟨dur, hdur, h⟩ := py_bind_ok h
      rw [pyGetNone] at hdur
      obtain ⟨skvs, hsegobj, hdurval⟩ := pyGetD_ok hdur
      obtain ⟨srest, hsegsarr⟩ := pyIndex0_ok_obj hsegment hsegobj
      obtain ⟨dist, hdist, h⟩ := py_bind_ok h
      rw [pyGetNone] at hdist
      obtain ⟨skvs2, hseg2, hdistval⟩ := pyGetD_ok hdist
      rw [hsegobj] at hseg2
      injection hseg2 with hseg2
      subst hseg2
      subst hdistval
      obtain ⟨steps, hsteps, h⟩ := py_bind_ok h
      split at h
      · obtain ⟨elems, helems, h⟩ := py_bind_ok h
        obtain ⟨stepLines, hsl, h⟩ := py_bind_ok h
        rw [py_pure_eq_ok] at h
        injection h with h
        exact Or.inr (Or.inr ⟨kvs, rkvs, skvs, rrest, srest, _, _, stepLines, rfl,
          hroutesarr, hsegsarr, fun l hl => renderSteps_no_fuel elems 1 stepLines hsl l hl,
          h.symm⟩)
      · rw [py_pure_eq_ok] at h
        injection h with h
        refine Or.inr (Or.inr ⟨kvs, rkvs, skvs, rrest, srest, _, _,
          ["No step-by-step directions available."], rfl, hroutesarr, hsegsarr, ?_, h.symm⟩)
        intro l hl
        rcases List.mem_singleton.mp hl with rfl
        decide

lemma hasFuelLine_structure (orig dest durStr distStr : String) (F S : List String)
    (hS : ∀ l ∈ S, isFuelLine l = false) :
    hasFuelLine (["\nAPI Status: Successful route call.\n",
                  "=============================================",
                  "Directions from " ++ orig ++ " to " ++ dest,
                  "Trip Duration: " ++ durStr,
                  "Distance: " ++ distStr] ++ F
                 ++ ["============================================="] ++ S
                 ++ ["=============================================\n"]) = hasFuelLine F := by
  have h1 : isFuelLine "\nAPI Status: Successful route call.\n" = false := by decide
  have h2 : isFuelLine "=============================================" = false := by decide
  have h3 : isFuelLine ("Directions from " ++ (orig ++ (" to " ++ dest))) = false :=
    isFuelLine_fixed_head _ (by rfl) (by decide)
  have h4 : isFuelLine ("Trip Duration: " ++ durStr) = false :=
    isFuelLine_fixed_head _ (by rfl) (by decide)
  have h5 : isFuelLine ("Distance: " ++ distStr) = false :=
    isFuelLine_fixed_head _ (by rfl) (by decide)
  have h6 : isFuelLine "=============================================\n" = false := by decide
  have hSany : S.any isFuelLine = false := by
    rw [List.any_eq_false]
    intro l hl
    rw [hS l hl]
    simp
  rw [hasFuelLine, hasFuelLine]
  simp only [List.any_append, List.any_cons, List.any_nil, h1, h2, h4, h5, h6, hSany]
  rw [show ("Directions from " ++ orig ++ " to " ++ dest)
      = ("Directions from " ++ (orig ++ (" to " ++ dest))) from by
    simp [String.append_assoc]]
  rw [h3]
  simp

lemma hasFuelLine_fuelLinesOf (rate dv : Option Frac) (u : String) :
    (hasFuelLine (fuelLinesOf rate dv u) = true) ↔
      (rate.isSome = true ∧ dv.isSome = true ∧ u = "metric") := by
  cases rate with
  | none => simp [fuelLinesOf, hasFuelLine]
  | some r =>
    cases dv with
    | none => simp [fuelLinesOf, hasFuelLine]
    | some d =>
      by_cases hu : u = "metric"
      · subst hu
        simp only [fuelLinesOf, hasFuelLine, String.append_assoc, eq_self_iff_true,
          if_true, List.any_cons, List.any_nil]
        rw [isFuelLine_fuel_string]
        simp
      · simp [fuelLinesOf, hu, hasFuelLine]

/-- C4: `print_route` prints a fuel-estimate line iff a fuel rate was
supplied, the segment distance converts, and the unit system is metric; the
estimate equals `distance_km × (rate / 100)`; the concrete segment
(10000 m, 1800 s, metric, rate 8.0) prints distance `10.00 km`, duration
`00:30:00` and fuel `0.80 L (at 8.0 L/100km)`; under imperial units a
supplied rate never produces a fuel line. -/
theorem print_route_fuel_spec :
    (print_route "A" "B" exRouteData "metric" (some (Frac.ofInt 8)) = .ok
      ["\nAPI Status: Successful route call.\n",
       "=============================================",
       "Directions from A to B",
       "Trip Duration: 00:30:00",
       "Distance: 10.00 km",
       "Estimated Fuel Used: 0.80 L (at 8.0 L/100km)",
       "=============================================",
       "No step-by-step directions available.",
       "=============================================\n"]) ∧
    (∀ (orig dest u : String) (rate : Option Frac) (kvs rkvs skvs : List (String × Json))
       (rrest srest : List Json) (lines : List String),
      objGetD kvs "routes" (.arr []) = .arr (.obj rkvs :: rrest) →
      objGetD rkvs "segments" (.arr []) = .arr (.obj skvs :: srest) →
      print_route orig dest (.obj kvs) u rate = .ok lines →
      (hasFuelLine lines = true ↔
        rate.isSome = true ∧
        (meters_to_km (objGetD skvs "distance" .null)).isSome = true ∧ u = "metric")) ∧
    (∀ (orig dest : String) (r dv : Frac) (kvs rkvs skvs : List (String × Json))
       (rrest srest : List Json) (lines : List String),
      objGetD kvs "routes" (.arr []) = .arr (.obj rkvs :: rrest) →
      objGetD rkvs "segments" (.arr []) = .arr (.obj skvs :: srest) →
      meters_to_km (objGetD skvs "distance" .null) = some dv →
      print_route orig dest (.obj kvs) "metric" (some r) = .ok lines →
      ("Estimated Fuel Used: " ++ formatFixed 2 (dv.mul (r.div (Frac.ofInt 100)))
        ++ " L (at " ++ formatFixed 1 r ++ " L/100km)") ∈ lines ∧
      (dv.mul (r.div (Frac.ofInt 100))).toRat = dv.toRat * (r.toRat / 100)) ∧
    (∀ (orig dest : String) (data : Json) (rate : Option Frac) (lines : List String),
      print_route orig dest data "imperial" rate = .ok lines →
      hasFuelLine lines = false) := by
  refine ⟨rfl, ?_, ?_, ?_⟩
  · intro orig dest u rate kvs rkvs skvs rrest srest lines hroutes hsegs hpr
    rcases print_route_ok_cases hpr with
      ⟨kvs', hk, htr, hl⟩ |
      ⟨kvs', rkvs', rrest', hk, hro, hts, hl⟩ |
      ⟨kvs', rkvs', skvs', rrest', srest', durStr, distStr, stepLines, hk, hro, hsg, hsf, hl⟩
    · injection hk with hk
      subst hk
      rw [hroutes] at htr
      simp [truthy] at htr
    · injection hk with hk
      subst hk
      have heq := hroutes.symm.trans hro
      injection heq with heq
      injection heq with heq1 heq2
      injection heq1 with heq1
      subst heq1
      rw [hsegs] at hts
      simp [truthy] at hts
    · injection hk with hk
      subst hk
      have heq := hroutes.symm.trans hro
      injection heq with heq
      injection heq with heq1 heq2
      injection heq1 with heq1
      subst heq1
      have heq' := hsegs.symm.trans hsg
      injection heq' with heq'
      injection heq' with heq1' heq2'
      injection heq1' with heq1'
      subst heq1'
      subst hl
      rw [hasFuelLine_structure _ _ _ _ _ _ hsf, hasFuelLine_fuelLinesOf]
      constructor
      · rintro ⟨h1, h2, h3⟩
        subst h3
        rw [if_neg (by decide)] at h2
        exact ⟨h1, h2, rfl⟩
      · rintro ⟨h1, h2, h3⟩
        subst h3
        rw [if_neg (by decide)]
        exact ⟨h1, h2, rfl⟩
  · intro orig dest r dv kvs rkvs skvs rrest srest lines hroutes hsegs hkm hpr
    rcases print_route_ok_cases hpr with
      ⟨kvs', hk, htr, hl⟩ |
      ⟨kvs', rkvs', rrest', hk, hro, hts, hl⟩ |
      ⟨kvs', rkvs', skvs', rrest', srest', durStr, distStr, stepLines, hk, hro, hsg, hsf, hl⟩
    · injection hk with hk
      subst hk
      rw [hroutes] at htr
      simp [truthy] at htr
    · injection hk with hk
      subst hk
      have heq := hroutes.symm.trans hro
      injection heq with heq
      injection heq with heq1 heq2
      injection heq1 with heq1
      subst heq1
      rw [hsegs] at hts
      simp [truthy] at hts
    · injection hk with hk
      subst hk
      have heq := hroutes.symm.trans hro
      injection heq with heq
      injection heq with heq1 heq2
      injection heq1 with heq1
      subst heq1
      have heq' := hsegs.symm.trans hsg
      injection heq' with heq'
      injection heq' with heq1' heq2'
      injection heq1' with heq1'
      subst heq1'
      constructor
      · subst hl
        rw [if_neg (by decide)] at *
        rw [show fuelLinesOf (some r) (meters_to_km (objGetD skvs "distance" .null)) "metric"
            = ["Estimated Fuel Used: " ++ formatFixed 2 (dv.mul (r.div (Frac.ofInt 100)))
                ++ " L (at " ++ formatFixed 1 r ++ " L/100km)"] from by
          rw [hkm, fuelLinesOf]
          rw [if_pos rfl]]
        simp [List.mem_append]
      · rw [Frac.toRat_mul, Frac.toRat_div_pos _ _ (by norm_num [Frac.ofInt]),
          Frac.toRat_ofInt]
        norm_num
  · intro orig dest data rate lines hpr
    rcases print_route_ok_cases hpr with
      ⟨kvs', hk, htr, hl⟩ |
      ⟨kvs', rkvs', rrest', hk, hro, hts, hl⟩ |
      ⟨kvs', rkvs', skvs', rrest', srest', durStr, distStr, stepLines, hk, hro, hsg, hsf, hl⟩
    · subst hl
      decide
    · subst hl
      decide
    · subst hl
      rw [hasFuelLine_structure _ _ _ _ _ _ hsf]
      rcases rate with _ | r
      · rfl
      · rcases hdm : (if ("imperial" : String) = "imperial"
            then meters_to_miles (objGetD skvs' "distance" .null)
            else meters_to_km (objGetD skvs' "distance" .null)) with _ | d
        · rfl
        · rfl

/-- C4 witness: the fuel-line equivalence applied to the concrete payload
`exRouteData` with metric units and rate 8.0. -/
theorem print_route_fuel_spec_witness :
    hasFuelLine
      ["\nAPI Status: Successful route call.\n",
       "=============================================",
       "Directions from A to B",
       "Trip Duration: 00:30:00",
       "Distance: 10.00 km",
       "Estimated Fuel Used: 0.80 L (at 8.0 L/100km)",
       "=============================================",
       "No step-by-step directions available.",
       "=============================================\n"] = true ↔
    ((some (Frac.ofInt 8)).isSome = true ∧
     (meters_to_km (objGetD
        [("duration", Json.num (Frac.ofInt 1800)), ("distance", Json.num (Frac.ofInt 10000))]
        "distance" .null)).isSome = true ∧ ("metric" : String) = "metric") :=
  print_route_fuel_spec.2.1 "A" "B" "metric" (some (Frac.ofInt 8))
    [("routes", .arr [.obj [("segments", .arr [exSegment])]])]
    [("segments", .arr [exSegment])]
    [("duration", Json.num (Frac.ofInt 1800)), ("distance", Json.num (Frac.ofInt 10000))]
    [] []
    ["\nAPI Status: Successful route call.\n",
     "=============================================",
     "Directions from A to B",
     "Trip Duration: 00:30:00",
     "Distance: 10.00 km",
     "Estimated Fuel Used: 0.80 L (at 8.0 L/100km)",
     "=============================================",
     "No step-by-step directions available.",
     "=============================================\n"]
    rfl rfl rfl

lemma append_lit_km (A : String) :
    A ++ " (" ++ "0.00" ++ " " ++ "km" ++ ")" = A ++ " (0.00 km)" := by
  simp only [String.append_assoc]
  rfl

lemma append_lit_mi (A : String) :
    A ++ " (" ++ "0.00" ++ " " ++ "mi" ++ ")" = A ++ " (0.00 mi)" := by
  simp only [String.append_assoc]
  rfl

/-- C10: a step whose mapping lacks a `"distance"` field is rendered with
the substituted value 0 and the parenthetical `(0.00 km)` (or `(0.00 mi)`
under imperial units); the parenthetical is omitted exactly when the
distance value does not convert — which only happens when a distance value
is present but non-numeric; a missing `"instruction"` field renders as the
literal `"N/A"`. -/
theorem step_rendering_defaults :
    (∀ (idx : ℕ) (kvs : List (String × Json)),
      (kvs.reverse).lookup "distance" = none →
      render_step "metric" idx (.obj kvs) = .ok (natToStr idx ++ ". "
        ++ pyStr (objGetD kvs "instruction" (.str "N/A")) ++ " (0.00 km)") ∧
      render_step "imperial" idx (.obj kvs) = .ok (natToStr idx ++ ". "
        ++ pyStr (objGetD kvs "instruction" (.str "N/A")) ++ " (0.00 mi)")) ∧
    (∀ (u : String) (idx : ℕ) (kvs : List (String × Json)),
      pyFloat (objGetD kvs "distance" (.num (Frac.ofInt 0))) = none →
      render_step u idx (.obj kvs) = .ok (natToStr idx ++ ". "
        ++ pyStr (objGetD kvs "instruction" (.str "N/A"))) ∧
      ∃ v, (kvs.reverse).lookup "distance" = some v ∧ pyFloat v = none) ∧
    (∀ (u : String) (idx : ℕ) (kvs : List (String × Json)) (q : Frac),
      pyFloat (objGetD kvs "distance" (.num (Frac.ofInt 0))) = some q →
      render_step u idx (.obj kvs) = .ok (natToStr idx ++ ". "
        ++ pyStr (objGetD kvs "instruction" (.str "N/A")) ++ " ("
        ++ formatFixed 2 (if u = "imperial" then q.div ⟨1609344, 1000, by norm_num⟩
             else q.div (Frac.ofInt 1000)) ++ " "
        ++ (if u = "imperial" then "mi" else "km") ++ ")")) ∧
    (∀ (kvs : List (String × Json)),
      (kvs.reverse).lookup "instruction" = none →
      pyStr (objGetD kvs "instruction" (.str "N/A")) = "N/A") := by
  refine ⟨?_, ?_, ?_, ?_⟩
  · intro idx kvs hmiss
    have hd : objGetD kvs "distance" (.num (Frac.ofInt 0)) = .num (Frac.ofInt 0) := by
      rw [objGetD, hmiss]
      rfl
    constructor
    · rw [← append_lit_km]
      simp only [render_step, pyGetD, ok_bind, hd]
      rfl
    · rw [← append_lit_mi]
      simp only [render_step, pyGetD, ok_bind, hd]
      rfl
  · intro u idx kvs hnone
    constructor
    · have hkm : meters_to_km (objGetD kvs "distance" (.num (Frac.ofInt 0))) = none := by
        rw [meters_to_km, hnone]
        rfl
      have hmi : meters_to_miles (objGetD kvs "distance" (.num (Frac.ofInt 0))) = none := by
        rw [meters_to_miles, hnone]
        rfl
      simp only [render_step, pyGetD, ok_bind, hkm, hmi, ite_self]
      rfl
    · rcases hlk : (kvs.reverse).lookup "distance" with _ | v
      · exfalso
        rw [objGetD, hlk] at hnone
        simp [pyFloat] at hnone
      · refine ⟨v, rfl, ?_⟩
        rw [objGetD, hlk] at hnone
        exact hnone
  · intro u idx kvs q hsome
    have hkm : meters_to_km (objGetD kvs "distance" (.num (Frac.ofInt 0)))
        = some (q.div (Frac.ofInt 1000)) := by
      rw [meters_to_km, hsome]
      rfl
    have hmi : meters_to_miles (objGetD kvs "distance" (.num (Frac.ofInt 0)))
        = some (q.div ⟨1609344, 1000, by norm_num⟩) := by
      rw [meters_to_miles, hsome]
      rfl
    by_cases hu : u = "imperial"
    · subst hu
      simp only [render_step, pyGetD, ok_bind, hmi, if_pos rfl]
      rfl
    · simp only [render_step, pyGetD, ok_bind, hkm, if_neg hu]
      rfl
  · intro kvs hmiss
    rw [objGetD, hmiss]
    rfl

/-- C10 witness: the theorem applied to a step with no `"distance"` and no
`"instruction"` field, and to a step whose distance is the non-numeric
string `"far"`. -/
theorem step_rendering_defaults_witness :
    (render_step "metric" 1 (.obj [("instruction", .str "Turn left")]) = .ok (natToStr 1 ++ ". "
      ++ pyStr (objGetD [("instruction", Json.str "Turn left")] "instruction" (.str "N/A"))
      ++ " (0.00 km)") ∧
     render_step "imperial" 1 (.obj [("instruction", .str "Turn left")]) = .ok (natToStr 1 ++ ". "
      ++ pyStr (objGetD [("instruction", Json.str "Turn left")] "instruction" (.str "N/A"))
      ++ " (0.00 mi)")) ∧
    (render_step "metric" 2 (.obj [("distance", .str "far")]) = .ok (natToStr 2 ++ ". "
      ++ pyStr (objGetD [("distance", Json.str "far")] "instruction" (.str "N/A"))) ∧
     ∃ v, ([("distance", Json.str "far")].reverse).lookup "distance" = some v ∧
       pyFloat v = none) ∧
    pyStr (objGetD [("distance", Json.str "far")] "instruction" (.str "N/A")) = "N/A" :=
  ⟨step_rendering_defaults.1 1 [("instruction", .str "Turn left")] rfl,
   step_rendering_defaults.2.1 "metric" 2 [("distance", .str "far")] rfl,
   step_rendering_defaults.2.2.2 [("distance", .str "far")] rfl⟩
